import Mathlib

/-!
RTSP handshake of `limelight-common/RtspConnection.c`.

A shallow embedding of `RtspConnection.c` and theorems about it.

* C strings are `String`; `strlen` is `String.utf8ByteSize`.
* The file-level globals (`currentSeqNumber`, `rtspTargetUrl`, `sessionIdString`,
  `hasSessionId`, `rtspClientVersion`, `client`, `peer`) and the global
  `NegotiatedVideoFormat` are the fields of `State`; every function takes the state and
  returns the new one.
* Everything the program cannot decide itself is a field of `Env`: the server generation,
  the stream configuration, the outcome of each `malloc`, the message codec
  (`serializeRtspMessage`, `parseRtspMessage`), the SDP encoder, the sockets and ENet.
  Network oracles are indexed by the number of transactions begun before.
* A function that returns `0`/`1` and fills an out-parameter on `1` returns an `Option`
  or an `Except` here (`none`, `.error e` = returned `0`, with `e` the value of `*error`).
* Two operations have no defined result in C: `strstr` on a `NULL` payload, and `strcpy`
  of a session id that does not fit `sessionIdString[16]`. A run that reaches one of them
  ends with `Outcome.undefined`.
* The global `sock` is `INVALID_SOCKET` before and after every transaction and is left
  out; timeouts are part of what the network oracles answer.
* `State.mallocs`, `State.built`, `State.exchanges` and `State.limelog` are ghost fields:
  the number of `malloc` calls, the requests `initializeRtspRequest` has built, the
  requests handed to `transactRtspMessage` with what came back, and the `Limelog` lines
  (format strings) written.
-/

namespace RtspConnection

/-! ## Data model -/

abbrev Bytes := List UInt8

def RTSP_MAX_RESP_SIZE : Nat := 32768

def SOCKET_ERROR : Int := -1

/-- An `OPTION_ITEM` of `Rtsp.h`: the name and the content of one option. -/
structure OPTION_ITEM where
  option : String
  content : String
deriving DecidableEq, Repr

/-- An `RTSP_MESSAGE` of `Rtsp.h`, request and response fields side by side. `payload` is
`none` for a `NULL` pointer, and else the NUL-terminated string the pointer refers to. -/
structure RTSP_MESSAGE where
  command : String
  target : String
  protocol : String
  statusCode : Int
  options : List OPTION_ITEM
  payload : Option String
  payloadLength : Int
deriving DecidableEq, Repr

inductive VideoFormat
  | VIDEO_FORMAT_H264
  | VIDEO_FORMAT_H265
deriving DecidableEq, Repr

inductive ENetEventType
  | ENET_EVENT_TYPE_NONE
  | ENET_EVENT_TYPE_CONNECT
  | ENET_EVENT_TYPE_DISCONNECT
  | ENET_EVENT_TYPE_RECEIVE
deriving DecidableEq, Repr

/-- What one call of `enet_host_service` hands back: its return value, and the type and
packet data of the event it filled in. -/
structure ENetService where
  ret : Int
  type : ENetEventType
  data : Bytes
deriving DecidableEq, Repr

/-- What the peer's stream holds when `recv` is called: a chunk of bytes (an empty chunk
is the orderly close, `recv` returns `0`), or a socket error (`recv` returns a negative
value). -/
inductive RecvEvent
  | data (chunk : Bytes)
  | failure
deriving DecidableEq, Repr

/-- The environment of one handshake. -/
structure Env where
  ServerMajorVersion : Int
  supportsHevc : Int
  urlAddr : String
  malloc : Nat → Bool
  serializeRtspMessage : RTSP_MESSAGE → Option Bytes
  parseRtspMessage : Bytes → Option RTSP_MESSAGE
  getSdpPayloadForStreamConfig : Int → Option (String × Int)
  connectTcpSocket : Nat → Option Nat
  LastSocketError : Nat → Int
  send : Nat → Bytes → Int
  recv : Nat → List RecvEvent
  enet_host_create : Option Nat
  enet_host_connect : Option Nat
  enet_connect_service : ENetService
  enet_packet_create : Nat → Nat → Bool
  enet_host_service : Nat → Nat → ENetService

/-- What one call of `transactRtspMessage` did. -/
structure TransactResult where
  response : Option RTSP_MESSAGE
  error : Int
  parsed : Option Bytes
  limelog : List String
deriving DecidableEq, Repr

/-- One request handed to `transactRtspMessage`, and what came back. -/
structure Exchange where
  request : RTSP_MESSAGE
  expectingPayload : Int
  result : TransactResult
deriving DecidableEq, Repr

structure State where
  currentSeqNumber : Int
  rtspTargetUrl : String
  sessionIdString : String
  hasSessionId : Int
  rtspClientVersion : Int
  client : Option Nat
  peer : Option Nat
  NegotiatedVideoFormat : VideoFormat
  mallocs : Nat
  built : List RTSP_MESSAGE
  exchanges : List Exchange
  limelog : List String
deriving DecidableEq, Repr

/-- How a call of `performRtspHandshake` ends: it returns an `int`, or it has reached an
operation whose behaviour C leaves undefined. -/
inductive Outcome
  | returned (value : Int)
  | undefined
deriving DecidableEq, Repr

structure Run where
  outcome : Outcome
  st : State
deriving DecidableEq, Repr

/-! ## Library functions used by the file -/

/-- The text `sprintf(buf, "%d", n)` writes. -/
def sprintf_d (n : Int) : String := toString n

def strlen (s : String) : Nat := s.utf8ByteSize

def strstrChars : List Char → List Char → Bool
  | [], needle => needle.isEmpty
  | c :: cs, needle => needle.isPrefixOf (c :: cs) || strstrChars cs needle

/-- The test `strstr(haystack, needle) != NULL`. -/
def strstr (haystack needle : String) : Bool := strstrChars haystack.data needle.data

/-- Modelled from the spec: `createRtspRequest` of the message codec, which is not in this
file; called as `createRtspRequest(msg, NULL, 0, command, target, protocol, 0, NULL, NULL,
0)` it gives a request with that method, target and protocol tag, no option and no
payload. -/
def createRtspRequest (command target protocol : String) : RTSP_MESSAGE :=
  { command := command, target := target, protocol := protocol, statusCode := 0,
    options := [], payload := none, payloadLength := 0 }

/-- Modelled from the spec: `insertOption` of the message codec, which is not in this
file; the option list keeps insertion order and allows duplicates. -/
def insertOption (head : List OPTION_ITEM) (item : OPTION_ITEM) : List OPTION_ITEM :=
  head ++ [item]

/-- Modelled from the spec: `getOptionContent` of the message codec, which is not in this
file; lookup by exact name, the first match's value or not found. -/
def getOptionContent (head : List OPTION_ITEM) (option : String) : Option String :=
  match head with
  | [] => none
  | item :: rest => if item.option = option then some item.content
                    else getOptionContent rest option

/-! ## Message builder -/

/-- `createOptionItem` (lines 21-49): three allocations, each of which may fail. -/
def createOptionItem (env : Env) (st : State) (option content : String) :
    Option OPTION_ITEM × State :=
  if env.malloc st.mallocs = false then
    (none, { st with mallocs := st.mallocs + 1 })
  else if env.malloc (st.mallocs + 1) = false then
    (none, { st with mallocs := st.mallocs + 2 })
  else if env.malloc (st.mallocs + 2) = false then
    (none, { st with mallocs := st.mallocs + 3 })
  else
    (some { option := option, content := content }, { st with mallocs := st.mallocs + 3 })

/-- `addOption` (lines 52-63): `none` when it returns `0`, else the message with the
option appended. -/
def addOption (env : Env) (st : State) (msg : RTSP_MESSAGE) (option content : String) :
    Option RTSP_MESSAGE × State :=
  match createOptionItem env st option content with
  | (none, st1) => (none, st1)
  | (some item, st1) => (some { msg with options := insertOption msg.options item }, st1)

/-- `initializeRtspRequest` (lines 66-84): `none` when it returns `0`. -/
def initializeRtspRequest (env : Env) (st : State) (command target : String) :
    Option RTSP_MESSAGE × State :=
  let msg := createRtspRequest command target "RTSP/1.0"
  let sequenceNumberStr := sprintf_d st.currentSeqNumber
  let st1 := { st with currentSeqNumber := st.currentSeqNumber + 1 }
  let clientVersionStr := sprintf_d st1.rtspClientVersion
  match addOption env st1 msg "CSeq" sequenceNumberStr with
  | (none, st2) => (none, st2)
  | (some msg1, st2) =>
    match addOption env st2 msg1 "X-GS-ClientVersion" clientVersionStr with
    | (none, st3) => (none, st3)
    | (some msg2, st3) => (some msg2, { st3 with built := st3.built ++ [msg2] })

/-! ## Transport -/

/-- The end of both transaction functions: `parseRtspMessage(response, responseBuffer,
offset)` on the filled part of the buffer, and the test of what it returns. -/
def parseResponse (env : Env) (responseBuffer : Bytes) (error : Int) : TransactResult :=
  match env.parseRtspMessage responseBuffer with
  | some response =>
    { response := some response, error := error, parsed := some responseBuffer,
      limelog := [] }
  | none =>
    { response := none, error := error, parsed := some responseBuffer,
      limelog := ["Failed to parse RTSP response\n"] }

/-- `transactRtspMessageEnet` (lines 87-196), for the transaction number `n`. The lengths
added are sizes of packets in memory, the sum stays far below the range of `size_t`. -/
def transactRtspMessageEnet (env : Env) (n : Nat) (request : RTSP_MESSAGE)
    (expectingPayload : Int) (error : Int) : TransactResult :=
  let payload := request.payload
  let header := { request with payload := none, payloadLength := 0 }
  match env.serializeRtspMessage header with
  | none => { response := none, error := error, parsed := none, limelog := [] }
  | some _ =>
    if env.enet_packet_create n 0 = false then
      { response := none, error := error, parsed := none, limelog := [] }
    else if payload ≠ none ∧ env.enet_packet_create n 1 = false then
      { response := none, error := error, parsed := none, limelog := [] }
    else
      let event := env.enet_host_service n 0
      if event.ret ≤ 0 ∨ event.type ≠ ENetEventType.ENET_EVENT_TYPE_RECEIVE then
        { response := none, error := error, parsed := none,
          limelog := ["Failed to receive RTSP reply\n"] }
      else if event.data.length > RTSP_MAX_RESP_SIZE then
        { response := none, error := error, parsed := none,
          limelog := ["RTSP message too long\n"] }
      else
        let offset := event.data.length
        if expectingPayload ≠ 0 then
          let event2 := env.enet_host_service n 1
          if event2.ret ≤ 0 ∨ event2.type ≠ ENetEventType.ENET_EVENT_TYPE_RECEIVE then
            { response := none, error := error, parsed := none,
              limelog := ["Failed to receive RTSP reply payload\n"] }
          else if event2.data.length + offset > RTSP_MAX_RESP_SIZE then
            { response := none, error := error, parsed := none,
              limelog := ["RTSP message payload too long\n"] }
          else
            parseResponse env (event.data ++ event2.data) error
        else
          parseResponse env event.data error

/-- The read loop of `transactRtspMessageTcp` (lines 232-246). The second argument is the
filled part of `responseBuffer`, its length is `offset`. Each `recv` takes at most
`RTSP_MAX_RESP_SIZE - offset` bytes of what the stream holds and returns their number;
when nothing more is scripted the receive timeout makes `recv` fail. `none` is the exit
through `"RTSP message too long"`. -/
def recvLoop : List RecvEvent → Bytes → Option Bytes
  | [], responseBuffer => some responseBuffer
  | RecvEvent.failure :: _, responseBuffer => some responseBuffer
  | RecvEvent.data chunk :: rest, responseBuffer =>
    let got := chunk.take (RTSP_MAX_RESP_SIZE - responseBuffer.length)
    if got.length = 0 then some responseBuffer
    else if responseBuffer.length + got.length = RTSP_MAX_RESP_SIZE then none
    else recvLoop rest (responseBuffer ++ got)

/-- `transactRtspMessageTcp` (lines 199-264), for the transaction number `n`. It sets
`*error = -1` first, so the value passed in is not read. -/
def transactRtspMessageTcp (env : Env) (n : Nat) (request : RTSP_MESSAGE)
    (_expectingPayload : Int) (_error : Int) : TransactResult :=
  match env.connectTcpSocket n with
  | none => { response := none, error := env.LastSocketError n, parsed := none, limelog := [] }
  | some _ =>
    match env.serializeRtspMessage request with
    | none => { response := none, error := -1, parsed := none, limelog := [] }
    | some serializedMessage =>
      if env.send n serializedMessage = SOCKET_ERROR then
        { response := none, error := env.LastSocketError n, parsed := none,
          limelog := ["Failed to send RTSP message: %d\n"] }
      else
        match recvLoop (env.recv n) [] with
        | none =>
          { response := none, error := -1, parsed := none,
            limelog := ["RTSP message too long\n"] }
        | some responseBuffer => parseResponse env responseBuffer (-1)

/-- `transactRtspMessage` (lines 266-274), for the transaction number `n`. -/
def transactRtspMessage (env : Env) (n : Nat) (request : RTSP_MESSAGE)
    (expectingPayload : Int) (error : Int) : TransactResult :=
  if env.ServerMajorVersion ≥ 5 then
    transactRtspMessageEnet env n request expectingPayload error
  else
    transactRtspMessageTcp env n request expectingPayload error

/-- What a caller of `transactRtspMessage` gets: the response when it returned `1`, the
value of `*error` when it returned `0`. -/
def TransactResult.toExcept (result : TransactResult) : Except Int RTSP_MESSAGE :=
  match result.response with
  | some response => Except.ok response
  | none => Except.error result.error

/-- The call `transactRtspMessage(&request, response, expectingPayload, error)` in a
request function: the exchange is recorded in the ghost fields. -/
def transact (env : Env) (st : State) (request : RTSP_MESSAGE)
    (expectingPayload : Int) (error : Int) : Except Int RTSP_MESSAGE × State :=
  let result := transactRtspMessage env st.exchanges.length request expectingPayload error
  (result.toExcept,
   { st with
     exchanges := st.exchanges ++ [{ request := request,
                                     expectingPayload := expectingPayload,
                                     result := result }],
     limelog := st.limelog ++ result.limelog })

/-! ## Requests -/

/-- `requestOptions` (lines 295-308). -/
def requestOptions (env : Env) (st : State) : Except Int RTSP_MESSAGE × State :=
  match initializeRtspRequest env st "OPTIONS" st.rtspTargetUrl with
  | (none, st1) => (Except.error (-1), st1)
  | (some request, st1) => transact env st1 request 0 (-1)

/-- `requestDescribe` (lines 311-332). -/
def requestDescribe (env : Env) (st : State) : Except Int RTSP_MESSAGE × State :=
  match initializeRtspRequest env st "DESCRIBE" st.rtspTargetUrl with
  | (none, st1) => (Except.error (-1), st1)
  | (some request, st1) =>
    match addOption env st1 request "Accept" "application/sdp" with
    | (none, st2) => (Except.error (-1), st2)
    | (some request2, st2) =>
      match addOption env st2 request2 "If-Modified-Since"
          "Thu, 01 Jan 1970 00:00:00 GMT" with
      | (none, st3) => (Except.error (-1), st3)
      | (some request3, st3) => transact env st3 request3 1 (-1)

/-- The part of `setupStream` after the optional `Session` option (lines 350-357). -/
def setupStreamTransport (env : Env) (st : State) (request : RTSP_MESSAGE) :
    Except Int RTSP_MESSAGE × State :=
  match addOption env st request "Transport" " " with
  | (none, st2) => (Except.error (-1), st2)
  | (some request2, st2) =>
    match addOption env st2 request2 "If-Modified-Since"
        "Thu, 01 Jan 1970 00:00:00 GMT" with
    | (none, st3) => (Except.error (-1), st3)
    | (some request3, st3) => transact env st3 request3 0 (-1)

/-- `setupStream` (lines 335-364). -/
def setupStream (env : Env) (st : State) (target : String) :
    Except Int RTSP_MESSAGE × State :=
  match initializeRtspRequest env st "SETUP" target with
  | (none, st1) => (Except.error (-1), st1)
  | (some request, st1) =>
    if st1.hasSessionId ≠ 0 then
      match addOption env st1 request "Session" st1.sessionIdString with
      | (none, st2) => (Except.error (-1), st2)
      | (some request2, st2) => setupStreamTransport env st2 request2
    else
      setupStreamTransport env st1 request

/-- `playStream` (lines 367-385). -/
def playStream (env : Env) (st : State) (target : String) :
    Except Int RTSP_MESSAGE × State :=
  match initializeRtspRequest env st "PLAY" target with
  | (none, st1) => (Except.error (-1), st1)
  | (some request, st1) =>
    match addOption env st1 request "Session" st1.sessionIdString with
    | (none, st2) => (Except.error (-1), st2)
    | (some request2, st2) => transact env st2 request2 0 (-1)

/-- `sendVideoAnnounce` (lines 388-424). -/
def sendVideoAnnounce (env : Env) (st : State) : Except Int RTSP_MESSAGE × State :=
  match initializeRtspRequest env st "ANNOUNCE" "streamid=video" with
  | (none, st1) => (Except.error (-1), st1)
  | (some request, st1) =>
    match addOption env st1 request "Session" st1.sessionIdString with
    | (none, st2) => (Except.error (-1), st2)
    | (some request2, st2) =>
      match addOption env st2 request2 "Content-type" "application/sdp" with
      | (none, st3) => (Except.error (-1), st3)
      | (some request3, st3) =>
        match env.getSdpPayloadForStreamConfig st3.rtspClientVersion with
        | none => (Except.error (-1), st3)
        | some (payload, payloadLength) =>
          let request4 := { request3 with payload := some payload,
                                          payloadLength := payloadLength }
          match addOption env st3 request4 "Content-length" (sprintf_d payloadLength) with
          | (none, st4) => (Except.error (-1), st4)
          | (some request5, st4) => transact env st4 request5 0 (-1)

/-! ## The handshake -/

/-- `Limelog(line)`. -/
def Limelog (st : State) (line : String) : State :=
  { st with limelog := st.limelog ++ [line] }

/-- The start of `performRtspHandshake` (lines 430-475): the globals are initialised and,
for a generation 5 server, the ENet host is created and connected. The ghost fields start
empty. -/
def handshakeSetup (env : Env) (st0 : State) : Except Run State :=
  let st1 := { st0 with
    rtspTargetUrl := "rtsp://" ++ env.urlAddr,
    currentSeqNumber := 1,
    hasSessionId := 0,
    mallocs := 0, built := [], exchanges := [], limelog := [] }
  let st2 := { st1 with
    rtspClientVersion :=
      if env.ServerMajorVersion = 3 then 10
      else if env.ServerMajorVersion = 4 then 11
      else 12 }
  if env.ServerMajorVersion ≥ 5 then
    match env.enet_host_create with
    | none => Except.error ⟨Outcome.returned (-1), { st2 with client := none }⟩
    | some host =>
      let st3 := { st2 with client := some host }
      match env.enet_host_connect with
      | none => Except.error ⟨Outcome.returned (-1), { st3 with peer := none }⟩
      | some p =>
        let st4 := { st3 with peer := some p }
        let event := env.enet_connect_service
        if event.ret ≤ 0 ∨ event.type ≠ ENetEventType.ENET_EVENT_TYPE_CONNECT then
          Except.error ⟨Outcome.returned (-1),
            Limelog st4 "RTSP: Failed to connect to UDP port 48010\n"⟩
        else
          Except.ok st4
  else
    Except.ok st2

/-- The test every block makes on what its request function returned: a failed
transaction returns `error`, a status other than 200 returns the status. -/
def requireStatus200 (failedLine statusLine : String)
    (r : Except Int RTSP_MESSAGE × State) : Except Run (RTSP_MESSAGE × State) :=
  match r with
  | (Except.error error, st1) =>
    Except.error ⟨Outcome.returned error, Limelog st1 failedLine⟩
  | (Except.ok response, st1) =>
    if response.statusCode ≠ 200 then
      Except.error ⟨Outcome.returned response.statusCode, Limelog st1 statusLine⟩
    else
      Except.ok (response, st1)

/-- The OPTIONS block (lines 477-493). -/
def handshakeOptions (env : Env) (st : State) : Except Run State :=
  match requireStatus200 "RTSP OPTIONS request failed: %d\n"
      "RTSP OPTIONS request failed: %d\n" (requestOptions env st) with
  | Except.error r => Except.error r
  | Except.ok (_, st1) => Except.ok st1

/-- The DESCRIBE block (lines 495-524). With `supportsHevc` set, `strstr` reads
`response.payload`. -/
def handshakeDescribe (env : Env) (st : State) : Except Run State :=
  match requireStatus200 "RTSP DESCRIBE request failed: %d\n"
      "RTSP DESCRIBE request failed: %d\n" (requestDescribe env st) with
  | Except.error r => Except.error r
  | Except.ok (response, st1) =>
    if env.supportsHevc ≠ 0 then
      match response.payload with
      | none => Except.error ⟨Outcome.undefined, st1⟩
      | some payload =>
        if strstr payload "sprop-parameter-sets=AAAAAU" then
          Except.ok { st1 with NegotiatedVideoFormat := VideoFormat.VIDEO_FORMAT_H265 }
        else
          Except.ok { st1 with NegotiatedVideoFormat := VideoFormat.VIDEO_FORMAT_H264 }
    else
      Except.ok { st1 with NegotiatedVideoFormat := VideoFormat.VIDEO_FORMAT_H264 }

/-- The SETUP streamid=audio block (lines 526-552). `strcpy` writes
`strlen(sessionId) + 1` bytes into `sessionIdString[16]`. -/
def handshakeSetupAudio (env : Env) (st : State) : Except Run State :=
  match requireStatus200 "RTSP SETUP streamid=audio request failed: %d\n"
      "RTSP SETUP streamid=audio request failed: %d\n"
      (setupStream env st "streamid=audio") with
  | Except.error r => Except.error r
  | Except.ok (response, st1) =>
    match getOptionContent response.options "Session" with
    | none =>
      Except.error ⟨Outcome.returned (-1),
        Limelog st1 "RTSP SETUP streamid=audio is missing session attribute"⟩
    | some sessionId =>
      if strlen sessionId + 1 > 16 then
        Except.error ⟨Outcome.undefined, st1⟩
      else
        Except.ok { st1 with sessionIdString := sessionId, hasSessionId := 1 }

/-- The SETUP streamid=video block (lines 554-570). -/
def handshakeSetupVideo (env : Env) (st : State) : Except Run State :=
  match requireStatus200 "RTSP SETUP streamid=video request failed: %d\n"
      "RTSP SETUP streamid=video request failed: %d\n"
      (setupStream env st "streamid=video") with
  | Except.error r => Except.error r
  | Except.ok (_, st1) => Except.ok st1

/-- The ANNOUNCE block (lines 572-588). -/
def handshakeAnnounce (env : Env) (st : State) : Except Run State :=
  match requireStatus200 "RTSP ANNOUNCE request failed: %d\n"
      "RTSP ANNOUNCE request failed: %d\n" (sendVideoAnnounce env st) with
  | Except.error r => Except.error r
  | Except.ok (_, st1) => Except.ok st1

/-- The PLAY streamid=video block (lines 590-606). -/
def handshakePlayVideo (env : Env) (st : State) : Except Run State :=
  match requireStatus200 "RTSP PLAY streamid=video request failed: %d\n"
      "RTSP PLAY streamid=video failed: %d\n" (playStream env st "streamid=video") with
  | Except.error r => Except.error r
  | Except.ok (_, st1) => Except.ok st1

/-- The PLAY streamid=audio block (lines 608-624). -/
def handshakePlayAudio (env : Env) (st : State) : Except Run State :=
  match requireStatus200 "RTSP PLAY streamid=audio request failed: %d\n"
      "RTSP PLAY streamid=audio failed: %d\n" (playStream env st "streamid=audio") with
  | Except.error r => Except.error r
  | Except.ok (_, st1) => Except.ok st1

/-- The end of `performRtspHandshake` (lines 626-639): "Cleanup the ENet stuff" and
`return 0`. -/
def handshakeCleanup (env : Env) (st : State) : Run :=
  if env.ServerMajorVersion ≥ 5 then
    ⟨Outcome.returned 0, { st with peer := none, client := none }⟩
  else
    ⟨Outcome.returned 0, st⟩

/-- `performRtspHandshake` up to the end of the DESCRIBE block. -/
def handshakeThroughDescribe (env : Env) (st0 : State) : Except Run State :=
  match handshakeSetup env st0 with
  | Except.error r => Except.error r
  | Except.ok st1 =>
    match handshakeOptions env st1 with
    | Except.error r => Except.error r
    | Except.ok st2 => handshakeDescribe env st2

/-- `performRtspHandshake` from the SETUP streamid=audio block on. -/
def handshakeAfterDescribe (env : Env) (st2 : State) : Run :=
  match handshakeSetupAudio env st2 with
  | Except.error r => r
  | Except.ok st3 =>
    match handshakeSetupVideo env st3 with
    | Except.error r => r
    | Except.ok st4 =>
      match handshakeAnnounce env st4 with
      | Except.error r => r
      | Except.ok st5 =>
        match handshakePlayVideo env st5 with
        | Except.error r => r
        | Except.ok st6 =>
          match handshakePlayAudio env st6 with
          | Except.error r => r
          | Except.ok st7 => handshakeCleanup env st7

/-- `performRtspHandshake` (lines 427-640), called with the globals as `st0` left them. -/
def performRtspHandshake (env : Env) (st0 : State) : Run :=
  match handshakeThroughDescribe env st0 with
  | Except.error r => r
  | Except.ok st2 => handshakeAfterDescribe env st2

/-! ## Canned environments -/

/-- A response as the codec would hand it back. -/
def cannedResponse (statusCode : Int) (options : List OPTION_ITEM) (payload : Option String) :
    RTSP_MESSAGE :=
  { command := "", target := "", protocol := "RTSP/1.0", statusCode := statusCode,
    options := options, payload := payload, payloadLength := 0 }

/-- A codec for canned responses: the one-byte buffer `[k]` parses to the `k`-th response
of the list, every other buffer is rejected. -/
def scriptedParse (responses : List RTSP_MESSAGE) : Bytes → Option RTSP_MESSAGE
  | [b] => responses[b.toNat]?
  | _ => none

/-- A server of the given generation that answers the transaction number `n` with the
buffer `[n]`, over either transport; every allocation and every send succeeds. -/
def scriptedEnv (generation supportsHevc : Int) (responses : List RTSP_MESSAGE) : Env :=
  { ServerMajorVersion := generation
    supportsHevc := supportsHevc
    urlAddr := "192.168.1.2"
    malloc := fun _ => true
    serializeRtspMessage := fun _ => some []
    parseRtspMessage := scriptedParse responses
    getSdpPayloadForStreamConfig := fun _ => some ("v=0", 3)
    connectTcpSocket := fun _ => some 3
    LastSocketError := fun _ => 110
    send := fun _ msg => msg.length
    recv := fun n => [RecvEvent.data [UInt8.ofNat n], RecvEvent.data []]
    enet_host_create := some 1
    enet_host_connect := some 2
    enet_connect_service := ⟨1, ENetEventType.ENET_EVENT_TYPE_CONNECT, []⟩
    enet_packet_create := fun _ _ => true
    enet_host_service := fun n k =>
      ⟨1, ENetEventType.ENET_EVENT_TYPE_RECEIVE, if k = 0 then [UInt8.ofNat n] else []⟩ }

/-- The globals before the first handshake of the process. -/
def initialState : State :=
  { currentSeqNumber := 0, rtspTargetUrl := "", sessionIdString := "", hasSessionId := 0,
    rtspClientVersion := 0, client := none, peer := none,
    NegotiatedVideoFormat := VideoFormat.VIDEO_FORMAT_H264,
    mallocs := 0, built := [], exchanges := [], limelog := [] }

def ok200 : RTSP_MESSAGE := cannedResponse 200 [⟨"CSeq", "1"⟩] (some "v=0")

def ok200Session (sessionId : String) : RTSP_MESSAGE :=
  cannedResponse 200 [⟨"CSeq", "1"⟩, ⟨"Session", sessionId⟩] none

/-- A chunk of exactly `RTSP_MAX_RESP_SIZE` bytes. -/
def fullChunk : Bytes := List.replicate RTSP_MAX_RESP_SIZE 0

/-- A stream server whose reply fills `responseBuffer` exactly, then closes. -/
def fullBufferEnv : Env :=
  { scriptedEnv 4 0 [] with
    recv := fun _ => [RecvEvent.data fullChunk, RecvEvent.data []] }

/-- A stream server whose connection fails after the reply `[0]` was read. -/
def resetAfterReplyEnv : Env :=
  { scriptedEnv 4 0 [ok200] with
    recv := fun _ => [RecvEvent.data [0], RecvEvent.failure] }

def optionsRequest : RTSP_MESSAGE := createRtspRequest "OPTIONS" "rtsp://192.168.1.2" "RTSP/1.0"

/-- Seven status-200 responses, the third with `Session: ABC123`. -/
def allOk : List RTSP_MESSAGE :=
  [ok200, ok200, ok200Session "ABC123", ok200, ok200, ok200, ok200]

/-- The server answers ANNOUNCE with status 454. -/
def announceRejected : List RTSP_MESSAGE :=
  [ok200, ok200, ok200Session "ABC123", ok200, cannedResponse 454 [] none, ok200, ok200]

/-- The SETUP streamid=audio response has no `Session` option. -/
def sessionMissing : List RTSP_MESSAGE :=
  [ok200, ok200, ok200, ok200, ok200, ok200, ok200]

/-- The SETUP streamid=audio response carries a `Session` value of 16 bytes. -/
def longSession : List RTSP_MESSAGE :=
  [ok200, ok200, ok200Session "0123456789ABCDEF", ok200, ok200, ok200, ok200]

/-- The DESCRIBE response has no payload. -/
def describeWithoutPayload : List RTSP_MESSAGE :=
  [ok200, cannedResponse 200 [⟨"CSeq", "2"⟩] none, ok200Session "ABC123", ok200, ok200,
   ok200, ok200]

/-- The DESCRIBE response advertises an HEVC stream. -/
def describeHevc : List RTSP_MESSAGE :=
  [ok200, cannedResponse 200 [⟨"CSeq", "2"⟩]
     (some "a=fmtp:96 sprop-parameter-sets=AAAAAUABYAAAAwCwAAADAAADAHgVQ"),
   ok200Session "ABC123", ok200, ok200, ok200, ok200]

/-- A codec for replies that come in two packets: the header packet `[k]` alone parses to
the `k`-th response of the list without a payload, the header packet followed by the
payload packet `[255]` parses to that response in full. -/
def packetParse (responses : List RTSP_MESSAGE) : Bytes → Option RTSP_MESSAGE
  | [b] => (responses[b.toNat]?).map (fun response => { response with payload := none })
  | [b, p] => if p = 255 then responses[b.toNat]? else none
  | _ => none

/-- A generation 5 server that sends the body of a reply in a packet of its own: the
transaction number `n` receives the header packet `[n]` and, where it waits for a payload,
the payload packet `[255]`. The allocator of the client has room for 78 blocks, the
number a complete handshake asks for, and fails from then on. -/
def payloadPacketEnv (supportsHevc : Int) (responses : List RTSP_MESSAGE) : Env :=
  { scriptedEnv 5 supportsHevc responses with
    malloc := fun k => decide (k < 78)
    parseRtspMessage := packetParse responses
    enet_host_service := fun n k =>
      ⟨1, ENetEventType.ENET_EVENT_TYPE_RECEIVE, if k = 0 then [UInt8.ofNat n] else [255]⟩ }

/-- What the transactions of a handshake with `payloadPacketEnv` bring back: the DESCRIBE
response in full, the others without a payload. -/
def packetReplies (responses : List RTSP_MESSAGE) (n : Nat) : RTSP_MESSAGE :=
  if n = 1 then responses.getD n ok200
  else { responses.getD n ok200 with payload := none }

/-- A stream server that cannot be reached, the platform reporting the error code 0. -/
def unreachableEnv : Env :=
  { scriptedEnv 4 0 allOk with
    connectTcpSocket := fun _ => none
    LastSocketError := fun _ => 0 }

/-- A generation 5 server for which `enet_host_connect` fails after the host was
created. -/
def connectFailsEnv : Env :=
  { scriptedEnv 5 0 allOk with enet_host_connect := none }

/-! ## Vocabulary of the statements -/

/-- The bytes the peer delivers before the read that returns `0` or less: the chunks up to
the first empty one, the first error, or the end of the script. -/
def delivered : List RecvEvent → Bytes
  | [] => []
  | RecvEvent.failure :: _ => []
  | RecvEvent.data chunk :: rest => if chunk = [] then [] else chunk ++ delivered rest

/-- The bytes of a list of non-empty chunks. -/
def chunkBytes : List Bytes → Bytes
  | [] => []
  | chunk :: rest => chunk ++ chunkBytes rest

/-- The transaction took one of its two "too long" exits. -/
def failedForSize (r : TransactResult) : Prop :=
  r.limelog = ["RTSP message too long\n"] ∨ r.limelog = ["RTSP message payload too long\n"]

/-- The request as `initializeRtspRequest` builds it in the state `st`. -/
def initialRequest (st : State) (command target : String) : RTSP_MESSAGE :=
  { createRtspRequest command target "RTSP/1.0" with
    options := [⟨"CSeq", sprintf_d st.currentSeqNumber⟩,
                ⟨"X-GS-ClientVersion", sprintf_d st.rtspClientVersion⟩] }

/-- The message with options appended. -/
def withOptions (msg : RTSP_MESSAGE) (extra : List OPTION_ITEM) : RTSP_MESSAGE :=
  { msg with options := msg.options ++ extra }

/-- The values of the `Session` options of a message, in order. -/
def sessionValues (msg : RTSP_MESSAGE) : List String :=
  (msg.options.filter (fun item => item.option = "Session")).map (fun item => item.content)

/-- The parsed response the transaction number `i` of the run brought back, if there was
such a transaction and it succeeded. -/
def Run.responseAt (r : Run) (i : Nat) : Option RTSP_MESSAGE :=
  r.st.exchanges[i]?.bind (fun ex => ex.result.response)

/-- The exchange brought back a parsed response with status 200. -/
def Exchange.Ok200 (ex : Exchange) : Prop :=
  ∃ response, ex.result.response = some response ∧ response.statusCode = 200

/-- A request could not be built: one of the allocations before number `limit` failed, or
the SDP encoder gave no payload. -/
def LocalFailure (env : Env) (st : State) (limit : Nat) : Prop :=
  (∃ k, k < limit ∧ env.malloc k = false) ∨
  env.getSdpPayloadForStreamConfig st.rtspClientVersion = none

/-- The ENet connection of a generation 5 server could not be set up. -/
def SetupFailure (env : Env) : Prop :=
  env.enet_host_create = none ∨ env.enet_host_connect = none ∨
  env.enet_connect_service.ret ≤ 0 ∨
  env.enet_connect_service.type ≠ ENetEventType.ENET_EVENT_TYPE_CONNECT

/-- A request function leaves these globals alone and advances the sequence counter. -/
structure Frame (st st1 : State) : Prop where
  seq : st1.currentSeqNumber = st.currentSeqNumber + 1
  url : st1.rtspTargetUrl = st.rtspTargetUrl
  session : st1.sessionIdString = st.sessionIdString
  hasSession : st1.hasSessionId = st.hasSessionId
  version : st1.rtspClientVersion = st.rtspClientVersion
  format : st1.NegotiatedVideoFormat = st.NegotiatedVideoFormat
  client : st1.client = st.client
  peer : st1.peer = st.peer

/-- What a request function does: it fails before the transaction (having built the
request `first` or not), or it hands `full` to the transport, having made three
allocations for each option of `full`. -/
inductive Requested (env : Env) (st : State) (first full : RTSP_MESSAGE) (expecting : Int) :
    Except Int RTSP_MESSAGE × State → Prop
  | notSent (st1 : State) :
      Frame st st1 → st1.exchanges = st.exchanges →
      (st1.built = st.built ∨ st1.built = st.built ++ [first]) →
      LocalFailure env st (st.mallocs + 3 * full.options.length) →
      Requested env st first full expecting (Except.error (-1), st1)
  | sent (st1 : State) :
      Frame st st1 →
      st1.exchanges = st.exchanges ++
        [⟨full, expecting, transactRtspMessage env st.exchanges.length full expecting (-1)⟩] →
      st1.built = st.built ++ [first] →
      st1.mallocs = st.mallocs + 3 * full.options.length →
      Requested env st first full expecting
        ((transactRtspMessage env st.exchanges.length full expecting (-1)).toExcept, st1)

/-- The request `requestDescribe` hands to the transport. -/
def describeRequest (st : State) : RTSP_MESSAGE :=
  withOptions (withOptions (initialRequest st "DESCRIBE" st.rtspTargetUrl)
    [⟨"Accept", "application/sdp"⟩])
    [⟨"If-Modified-Since", "Thu, 01 Jan 1970 00:00:00 GMT"⟩]

/-- The request `setupStream` hands to the transport. -/
def setupRequest (st : State) (target : String) : RTSP_MESSAGE :=
  withOptions (withOptions
    (if st.hasSessionId ≠ 0 then
      withOptions (initialRequest st "SETUP" target) [⟨"Session", st.sessionIdString⟩]
     else initialRequest st "SETUP" target)
    [⟨"Transport", " "⟩])
    [⟨"If-Modified-Since", "Thu, 01 Jan 1970 00:00:00 GMT"⟩]

/-- The request `playStream` hands to the transport. -/
def playRequest (st : State) (target : String) : RTSP_MESSAGE :=
  withOptions (initialRequest st "PLAY" target) [⟨"Session", st.sessionIdString⟩]

/-- The request `sendVideoAnnounce` hands to the transport, for the SDP payload `sdp`. -/
def announceRequest (st : State) (sdp : String × Int) : RTSP_MESSAGE :=
  withOptions
    { withOptions (withOptions (initialRequest st "ANNOUNCE" "streamid=video")
        [⟨"Session", st.sessionIdString⟩]) [⟨"Content-type", "application/sdp"⟩] with
      payload := some sdp.1, payloadLength := sdp.2 }
    [⟨"Content-length", sprintf_d sdp.2⟩]

/-- The method of the request of block number `n`, counted from 0. -/
def stepCommand : Nat → String
  | 0 => "OPTIONS"
  | 1 => "DESCRIBE"
  | 2 => "SETUP"
  | 3 => "SETUP"
  | 4 => "ANNOUNCE"
  | _ => "PLAY"

/-- The target of the request of block number `n`, for the base URL `url`. -/
def stepTarget (url : String) : Nat → String
  | 0 => url
  | 1 => url
  | 2 => "streamid=audio"
  | 3 => "streamid=video"
  | 4 => "streamid=video"
  | 5 => "streamid=video"
  | _ => "streamid=audio"

/-- The request block number `n` builds first, in the state `st`. -/
def stepFirst (n : Nat) (st : State) : RTSP_MESSAGE :=
  initialRequest st (stepCommand n) (stepTarget st.rtspTargetUrl n)

/-- The request block number `n` hands to the transport, in the state `st`. -/
def stepFull (env : Env) (n : Nat) (st : State) : RTSP_MESSAGE :=
  match n with
  | 0 => initialRequest st "OPTIONS" st.rtspTargetUrl
  | 1 => describeRequest st
  | 2 => setupRequest st "streamid=audio"
  | 3 => setupRequest st "streamid=video"
  | 4 => announceRequest st
          ((env.getSdpPayloadForStreamConfig st.rtspClientVersion).getD ("", 0))
  | 5 => playRequest st "streamid=video"
  | _ => playRequest st "streamid=audio"

/-- The `expectingPayload` argument of block number `n`. -/
def stepExpecting (n : Nat) : Int := if n = 1 then 1 else 0

/-- The exchange of block number `n`, begun in the state `st`. -/
def stepExchange (env : Env) (n : Nat) (st : State) : Exchange :=
  ⟨stepFull env n st, stepExpecting n,
   transactRtspMessage env st.exchanges.length (stepFull env n st) (stepExpecting n) (-1)⟩

/-- The value `performRtspHandshake` gives `rtspClientVersion` (lines 436-444). -/
def clientVersion (env : Env) : Int :=
  if env.ServerMajorVersion = 3 then 10
  else if env.ServerMajorVersion = 4 then 11
  else 12

/-- The globals the request of block number `n` is built from in a handshake that reached
the block, `sessionId` being the stored session id: the sequence number `n + 1`, the URL
and the client version of lines 431-444, and `hasSessionId` set from the SETUP
streamid=video block on. -/
def stepState (env : Env) (sessionId : String) (n : Nat) : State :=
  { currentSeqNumber := (n : Int) + 1, rtspTargetUrl := "rtsp://" ++ env.urlAddr,
    sessionIdString := sessionId, hasSessionId := if n < 3 then 0 else 1,
    rtspClientVersion := clientVersion env, client := none, peer := none,
    NegotiatedVideoFormat := VideoFormat.VIDEO_FORMAT_H264,
    mallocs := 0, built := [], exchanges := [], limelog := [] }

/-- The request block number `n` of a handshake hands to the transport, `sessionId` being
the stored session id (not read by the first three blocks). -/
def requestOfStep (env : Env) (sessionId : String) (n : Nat) : RTSP_MESSAGE :=
  stepFull env n (stepState env sessionId n)

/-- The number of allocations the first `n` blocks of a handshake make: three for each
option of their requests (2, 4, 4, 5, 5, 3 and 3 options). -/
def stepMallocs : Nat → Nat
  | 0 => 0
  | 1 => 6
  | 2 => 18
  | 3 => 30
  | 4 => 45
  | 5 => 60
  | 6 => 69
  | _ => 78

/-- The video format the DESCRIBE block chooses for a response payload. -/
def negotiatedFormat (supportsHevc : Int) (payload : Option String) : VideoFormat :=
  match payload with
  | some p =>
    if supportsHevc ≠ 0 ∧ strstr p "sprop-parameter-sets=AAAAAU" = true then
      VideoFormat.VIDEO_FORMAT_H265
    else VideoFormat.VIDEO_FORMAT_H264
  | none => VideoFormat.VIDEO_FORMAT_H264

/-- In `st1` block number `n`, begun in `st`, has handed its request to the transport. -/
structure SentIn (env : Env) (n : Nat) (st st1 : State) : Prop where
  frame : Frame st st1
  exchanges : st1.exchanges = st.exchanges ++ [stepExchange env n st]
  built : st1.built = st.built ++ [stepFirst n st]
  mallocs : st1.mallocs = st.mallocs + 3 * (stepFull env n st).options.length

/-- Block number `n`, begun in `st`, has completed and left the state `st2`. -/
structure Advanced (env : Env) (n : Nat) (st st2 : State) : Prop where
  seq : st2.currentSeqNumber = st.currentSeqNumber + 1
  url : st2.rtspTargetUrl = st.rtspTargetUrl
  version : st2.rtspClientVersion = st.rtspClientVersion
  client : st2.client = st.client
  peer : st2.peer = st.peer
  exchanges : st2.exchanges = st.exchanges ++ [stepExchange env n st]
  built : st2.built = st.built ++ [stepFirst n st]
  mallocs : st2.mallocs = st.mallocs + 3 * (stepFull env n st).options.length
  ok : (stepExchange env n st).Ok200
  format : n ≠ 1 → st2.NegotiatedVideoFormat = st.NegotiatedVideoFormat
  describe : n = 1 → ∃ response,
    (stepExchange env n st).result.response = some response ∧
    st2.NegotiatedVideoFormat = negotiatedFormat env.supportsHevc response.payload ∧
    (env.supportsHevc ≠ 0 → response.payload ≠ none)
  session : n ≠ 2 → st2.sessionIdString = st.sessionIdString ∧
    st2.hasSessionId = st.hasSessionId
  setup : n = 2 → ∃ response,
    (stepExchange env n st).result.response = some response ∧
    getOptionContent response.options "Session" = some st2.sessionIdString ∧
    strlen st2.sessionIdString + 1 ≤ 16 ∧ st2.hasSessionId = 1

/-- The run `r` ended in block number `n`, begun in `st`. -/
inductive Stopped (env : Env) (n : Nat) (st : State) (r : Run) : Prop
  | notSent :
      Frame st r.st → r.st.exchanges = st.exchanges →
      (r.st.built = st.built ∨ r.st.built = st.built ++ [stepFirst n st]) →
      r.outcome = Outcome.returned (-1) →
      LocalFailure env st (st.mallocs + 3 * (stepFull env n st).options.length) →
      Stopped env n st r
  | failed :
      SentIn env n st r.st →
      (stepExchange env n st).result.response = none →
      r.outcome = Outcome.returned (stepExchange env n st).result.error →
      Stopped env n st r
  | status (response : RTSP_MESSAGE) :
      SentIn env n st r.st →
      (stepExchange env n st).result.response = some response →
      response.statusCode ≠ 200 →
      r.outcome = Outcome.returned response.statusCode → Stopped env n st r
  | noPayload (response : RTSP_MESSAGE) :
      n = 1 → SentIn env n st r.st →
      (stepExchange env n st).result.response = some response →
      response.statusCode = 200 → env.supportsHevc ≠ 0 → response.payload = none →
      r.outcome = Outcome.undefined → Stopped env n st r
  | noSession (response : RTSP_MESSAGE) :
      n = 2 → SentIn env n st r.st →
      (stepExchange env n st).result.response = some response →
      response.statusCode = 200 →
      getOptionContent response.options "Session" = none →
      r.outcome = Outcome.returned (-1) → Stopped env n st r
  | overflow (response : RTSP_MESSAGE) (sessionId : String) :
      n = 2 → SentIn env n st r.st →
      (stepExchange env n st).result.response = some response →
      response.statusCode = 200 →
      getOptionContent response.options "Session" = some sessionId →
      16 < strlen sessionId + 1 →
      r.outcome = Outcome.undefined → Stopped env n st r

/-- What block number `n`, begun in `st`, leaves: a state to go on from, or the run's end. -/
def BlockSpec (env : Env) (n : Nat) (st : State) : Except Run State → Prop
  | Except.ok st2 => Advanced env n st st2
  | Except.error r => Stopped env n st r

/-- What `requireStatus200` leaves of block number `n`, begun in `st`. -/
def GateSpec (env : Env) (n : Nat) (st : State) : Except Run (RTSP_MESSAGE × State) → Prop
  | Except.ok (response, st1) =>
      SentIn env n st st1 ∧ (stepExchange env n st).result.response = some response ∧
      response.statusCode = 200
  | Except.error r => Stopped env n st r

/-- What the request of block number `i` looks like when the stored session id is
`sessionId`. -/
structure Shape (env : Env) (sessionId : String) (i : Nat) (request : RTSP_MESSAGE) :
    Prop where
  command : request.command = stepCommand i
  target : request.target = stepTarget ("rtsp://" ++ env.urlAddr) i
  cseq : getOptionContent request.options "CSeq" = some (sprintf_d ((i : Int) + 1))
  session : sessionValues request = if i < 3 then [] else [sessionId]

/-- The state between two blocks, `n` blocks having completed. -/
structure Boundary (env : Env) (n : Nat) (st : State) : Prop where
  len : st.exchanges.length = n
  blen : st.built.length = n
  seq : st.currentSeqNumber = (n : Int) + 1
  url : st.rtspTargetUrl = "rtsp://" ++ env.urlAddr
  version : st.rtspClientVersion = clientVersion env
  mallocs : st.mallocs = stepMallocs n
  ok : ∀ ex ∈ st.exchanges, ex.Ok200
  transport : ∀ (i : Nat) (ex : Exchange), st.exchanges[i]? = some ex →
    ex.result = transactRtspMessage env i ex.request ex.expectingPayload (-1)
  shape : ∀ (i : Nat) (ex : Exchange), st.exchanges[i]? = some ex →
    Shape env st.sessionIdString i ex.request
  request : ∀ (i : Nat) (ex : Exchange), st.exchanges[i]? = some ex →
    ex.request = requestOfStep env st.sessionIdString i ∧
    ex.expectingPayload = stepExpecting i
  cseq : ∀ (i : Nat) (m : RTSP_MESSAGE), st.built[i]? = some m →
    getOptionContent m.options "CSeq" = some (sprintf_d ((i : Int) + 1))
  nosession : n < 3 → st.hasSessionId = 0
  session : 3 ≤ n → st.hasSessionId = 1 ∧ strlen st.sessionIdString + 1 ≤ 16 ∧
    ∃ ex response, st.exchanges[2]? = some ex ∧ ex.result.response = some response ∧
      getOptionContent response.options "Session" = some st.sessionIdString
  codec : 2 ≤ n → ∃ ex response, st.exchanges[1]? = some ex ∧
    ex.result.response = some response ∧
    st.NegotiatedVideoFormat = negotiatedFormat env.supportsHevc response.payload ∧
    (env.supportsHevc ≠ 0 → response.payload ≠ none)

/-- The run `r` ended before the first request, or in one of the first `k` blocks. -/
inductive Ended (env : Env) (k : Nat) (r : Run) : Prop
  | setupFailed :
      5 ≤ env.ServerMajorVersion → r.st.exchanges = [] → r.st.built = [] →
      r.outcome = Outcome.returned (-1) → SetupFailure env → Ended env k r
  | stopped (n : Nat) (st : State) :
      n < k → Boundary env n st → Stopped env n st r → Ended env k r

/-- How a run of the handshake went. -/
inductive RunSpec (env : Env) (r : Run) : Prop
  | ended : Ended env 7 r → RunSpec env r
  | completed (st : State) : Boundary env 7 st → r = handshakeCleanup env st → RunSpec env r

/-- What the first `n` blocks leave: the state after them, or the end of the run. -/
def StepSpec (env : Env) (n : Nat) : Except Run State → Prop
  | Except.ok st => Boundary env n st
  | Except.error r => Ended env n r

/-- The state `st1` has the exchanges of `st`, in their places, and its video format. -/
structure Keeps (st st1 : State) : Prop where
  exchanges : ∀ (i : Nat) (ex : Exchange),
    st.exchanges[i]? = some ex → st1.exchanges[i]? = some ex
  format : st1.NegotiatedVideoFormat = st.NegotiatedVideoFormat

/-- Whatever a block leaves keeps the exchanges and the video format of `st`. -/
def KeepsSpec (st : State) : Except Run State → Prop
  | Except.ok st1 => Keeps st st1
  | Except.error r => Keeps st r.st

/-! ## The transactions -/

theorem recvLoop_eq (events : List RecvEvent) :
    ∀ buf : Bytes, buf.length < RTSP_MAX_RESP_SIZE →
      recvLoop events buf =
        if RTSP_MAX_RESP_SIZE ≤ buf.length + (delivered events).length then none
        else some (buf ++ delivered events) := by
  induction events with
  | nil => intro buf h; simp [recvLoop, delivered, Nat.not_le.mpr h]
  | cons ev rest ih =>
    intro buf h
    cases ev with
    | failure => simp [recvLoop, delivered, Nat.not_le.mpr h]
    | data chunk =>
      by_cases hc : chunk = []
      · subst hc
        simp [recvLoop, delivered, Nat.not_le.mpr h]
      · have hpos : 0 < chunk.length := List.length_pos.mpr hc
        by_cases hfit : chunk.length < RTSP_MAX_RESP_SIZE - buf.length
        · have hmin : min (RTSP_MAX_RESP_SIZE - buf.length) chunk.length = chunk.length :=
            Nat.min_eq_right (Nat.le_of_lt hfit)
          have htake : chunk.take (RTSP_MAX_RESP_SIZE - buf.length) = chunk :=
            List.take_of_length_le (Nat.le_of_lt hfit)
          have hlen : (buf ++ chunk).length < RTSP_MAX_RESP_SIZE := by
            simp only [List.length_append]; omega
          have hne : ¬ (buf.length + chunk.length = RTSP_MAX_RESP_SIZE) := by omega
          simp only [recvLoop, delivered, htake, hc, if_false, hne]
          rw [if_neg (by omega), ih _ hlen]
          simp only [List.length_append, List.append_assoc, Nat.add_assoc]
        · have hmin : (chunk.take (RTSP_MAX_RESP_SIZE - buf.length)).length
              = RTSP_MAX_RESP_SIZE - buf.length := by
            rw [List.length_take]; omega
          have h1 : ¬ ((chunk.take (RTSP_MAX_RESP_SIZE - buf.length)).length = 0) := by
            rw [hmin]; omega
          have h2 : buf.length + (chunk.take (RTSP_MAX_RESP_SIZE - buf.length)).length
              = RTSP_MAX_RESP_SIZE := by rw [hmin]; omega
          simp only [recvLoop, delivered, hc, if_false, h1, h2, if_true]
          rw [if_pos]
          simp only [List.length_append]; omega

theorem parseResponse_parsed (env : Env) (buf : Bytes) (error : Int) :
    (parseResponse env buf error).parsed = some buf := by
  unfold parseResponse; cases env.parseRtspMessage buf <;> rfl

theorem parseResponse_response (env : Env) (buf : Bytes) (error : Int) :
    (parseResponse env buf error).response = env.parseRtspMessage buf := by
  unfold parseResponse; cases env.parseRtspMessage buf <;> rfl

theorem transactRtspMessageTcp_sent (env : Env) (n : Nat) (request : RTSP_MESSAGE)
    (expectingPayload error : Int) (sock : Nat) (msg : Bytes)
    (hconnect : env.connectTcpSocket n = some sock)
    (hserialize : env.serializeRtspMessage request = some msg)
    (hsend : env.send n msg ≠ SOCKET_ERROR) :
    transactRtspMessageTcp env n request expectingPayload error =
      if RTSP_MAX_RESP_SIZE ≤ (delivered (env.recv n)).length then
        { response := none, error := -1, parsed := none,
          limelog := ["RTSP message too long\n"] }
      else
        parseResponse env (delivered (env.recv n)) (-1) := by
  have hloop := recvLoop_eq (env.recv n) [] (by simp [RTSP_MAX_RESP_SIZE])
  simp only [List.length_nil, Nat.zero_add, List.nil_append] at hloop
  unfold transactRtspMessageTcp
  simp only [hconnect, hserialize, hsend, if_false, hloop]
  by_cases h : RTSP_MAX_RESP_SIZE ≤ (delivered (env.recv n)).length
  · simp only [h, if_true]
  · simp only [h, if_false]

theorem transactRtspMessageEnet_received (env : Env) (n : Nat) (request : RTSP_MESSAGE)
    (expectingPayload error : Int) (msg : Bytes)
    (hser : env.serializeRtspMessage { request with payload := none, payloadLength := 0 }
      = some msg)
    (hp0 : env.enet_packet_create n 0 = true)
    (hp1 : request.payload ≠ none → env.enet_packet_create n 1 = true)
    (hev0 : 0 < (env.enet_host_service n 0).ret ∧
      (env.enet_host_service n 0).type = ENetEventType.ENET_EVENT_TYPE_RECEIVE)
    (hev1 : expectingPayload ≠ 0 →
      0 < (env.enet_host_service n 1).ret ∧
      (env.enet_host_service n 1).type = ENetEventType.ENET_EVENT_TYPE_RECEIVE) :
    transactRtspMessageEnet env n request expectingPayload error =
      if RTSP_MAX_RESP_SIZE < (env.enet_host_service n 0).data.length then
        { response := none, error := error, parsed := none,
          limelog := ["RTSP message too long\n"] }
      else if expectingPayload ≠ 0 then
        if RTSP_MAX_RESP_SIZE < (env.enet_host_service n 1).data.length
            + (env.enet_host_service n 0).data.length then
          { response := none, error := error, parsed := none,
            limelog := ["RTSP message payload too long\n"] }
        else
          parseResponse env
            ((env.enet_host_service n 0).data ++ (env.enet_host_service n 1).data) error
      else
        parseResponse env (env.enet_host_service n 0).data error := by
  have hnot0 : ¬ ((env.enet_host_service n 0).ret ≤ 0 ∨
      (env.enet_host_service n 0).type ≠ ENetEventType.ENET_EVENT_TYPE_RECEIVE) := by
    rintro (h | h)
    · have := hev0.1; omega
    · exact h hev0.2
  have hpay : ¬ (request.payload ≠ none ∧ env.enet_packet_create n 1 = false) := by
    rintro ⟨h1, h2⟩
    rw [hp1 h1] at h2
    exact Bool.noConfusion h2
  unfold transactRtspMessageEnet
  simp only [hser, hp0, hnot0, hpay, if_false, Bool.true_eq_false, gt_iff_lt]
  by_cases hexp : expectingPayload ≠ 0
  · have hnot1 : ¬ ((env.enet_host_service n 1).ret ≤ 0 ∨
        (env.enet_host_service n 1).type ≠ ENetEventType.ENET_EVENT_TYPE_RECEIVE) := by
      rintro (h | h)
      · have := (hev1 hexp).1; omega
      · exact h (hev1 hexp).2
    simp only [hexp, hnot1, if_true, if_false, not_false_eq_true]
  · simp only [hexp, if_false]

theorem chunkBytes_delivered (chunks : List Bytes) (ev : RecvEvent) (rest : List RecvEvent)
    (hne : ∀ c ∈ chunks, c ≠ [])
    (hev : ev = RecvEvent.failure ∨ ev = RecvEvent.data []) :
    delivered (chunks.map RecvEvent.data ++ ev :: rest) = chunkBytes chunks := by
  induction chunks with
  | nil =>
    rcases hev with h | h <;> subst h <;> simp [delivered, chunkBytes]
  | cons c cs ih =>
    have hc : c ≠ [] := hne c (List.mem_cons_self _ _)
    have hcs : ∀ x ∈ cs, x ≠ [] := fun x hx => hne x (List.mem_cons_of_mem _ hx)
    simp [delivered, chunkBytes, hc, ih hcs]

theorem failedForSize_parseResponse (env : Env) (buf : Bytes) (error : Int) :
    ¬ ((failedForSize (parseResponse env buf error)) ∧
        (parseResponse env buf error).parsed = none) := by
  rintro ⟨_, h⟩
  rw [parseResponse_parsed] at h
  exact Option.noConfusion h

/-- C6, as amended. Datagram variant: once the request is out and the reply packets have
come in, the transaction is failed for size, the codec not invoked, exactly when the header
packet plus (if a payload is expected) the payload packet exceed `RTSP_MAX_RESP_SIZE`, and a
reply of at most `RTSP_MAX_RESP_SIZE` bytes is handed to the codec in full. Stream variant:
once the request is sent, the transaction is failed for size, the codec not invoked,
exactly when the bytes delivered before the close reach `RTSP_MAX_RESP_SIZE`, and a reply
of fewer bytes is handed to the codec in full. -/
theorem response_size_bound :
    (∀ (env : Env) (n : Nat) (request : RTSP_MESSAGE) (expectingPayload error : Int)
        (msg : Bytes),
      env.serializeRtspMessage { request with payload := none, payloadLength := 0 }
        = some msg →
      env.enet_packet_create n 0 = true →
      (request.payload ≠ none → env.enet_packet_create n 1 = true) →
      (0 < (env.enet_host_service n 0).ret ∧
        (env.enet_host_service n 0).type = ENetEventType.ENET_EVENT_TYPE_RECEIVE) →
      (expectingPayload ≠ 0 →
        0 < (env.enet_host_service n 1).ret ∧
        (env.enet_host_service n 1).type = ENetEventType.ENET_EVENT_TYPE_RECEIVE) →
      ((failedForSize (transactRtspMessageEnet env n request expectingPayload error) ∧
          (transactRtspMessageEnet env n request expectingPayload error).parsed = none) ↔
        RTSP_MAX_RESP_SIZE <
          ((env.enet_host_service n 0).data ++
            (if expectingPayload ≠ 0 then (env.enet_host_service n 1).data else [])).length) ∧
      (((env.enet_host_service n 0).data ++
            (if expectingPayload ≠ 0 then (env.enet_host_service n 1).data else [])).length
          ≤ RTSP_MAX_RESP_SIZE →
        (transactRtspMessageEnet env n request expectingPayload error).parsed =
          some ((env.enet_host_service n 0).data ++
            (if expectingPayload ≠ 0 then (env.enet_host_service n 1).data else [])) ∧
        (transactRtspMessageEnet env n request expectingPayload error).response =
          env.parseRtspMessage ((env.enet_host_service n 0).data ++
            (if expectingPayload ≠ 0 then (env.enet_host_service n 1).data else [])))) ∧
    (∀ (env : Env) (n : Nat) (request : RTSP_MESSAGE) (expectingPayload error : Int)
        (sock : Nat) (msg : Bytes),
      env.connectTcpSocket n = some sock →
      env.serializeRtspMessage request = some msg →
      env.send n msg ≠ SOCKET_ERROR →
      ((failedForSize (transactRtspMessageTcp env n request expectingPayload error) ∧
          (transactRtspMessageTcp env n request expectingPayload error).parsed = none) ↔
        RTSP_MAX_RESP_SIZE ≤ (delivered (env.recv n)).length) ∧
      ((delivered (env.recv n)).length < RTSP_MAX_RESP_SIZE →
        (transactRtspMessageTcp env n request expectingPayload error).parsed =
          some (delivered (env.recv n)) ∧
        (transactRtspMessageTcp env n request expectingPayload error).response =
          env.parseRtspMessage (delivered (env.recv n)))) := by
  refine ⟨?_, ?_⟩
  · intro env n request expectingPayload error msg hser hp0 hp1 hev0 hev1
    rw [transactRtspMessageEnet_received env n request expectingPayload error msg
      hser hp0 hp1 hev0 hev1]
    by_cases hhdr : RTSP_MAX_RESP_SIZE < (env.enet_host_service n 0).data.length
    · rw [if_pos hhdr]
      refine ⟨⟨fun _ => ?_, fun _ => ⟨Or.inl rfl, rfl⟩⟩, fun h => ?_⟩
      · rw [List.length_append]; omega
      · rw [List.length_append] at h; omega
    · rw [if_neg hhdr]
      by_cases hexp : expectingPayload ≠ 0
      · rw [if_pos hexp, if_pos hexp]
        by_cases hsum : RTSP_MAX_RESP_SIZE < (env.enet_host_service n 1).data.length
            + (env.enet_host_service n 0).data.length
        · rw [if_pos hsum]
          refine ⟨⟨fun _ => ?_, fun _ => ⟨Or.inr rfl, rfl⟩⟩, fun h => ?_⟩
          · rw [List.length_append]; omega
          · rw [List.length_append] at h; omega
        · rw [if_neg hsum]
          refine ⟨⟨fun h => absurd h (failedForSize_parseResponse _ _ _), fun h => ?_⟩,
            fun _ => ⟨parseResponse_parsed _ _ _, parseResponse_response _ _ _⟩⟩
          rw [List.length_append] at h; omega
      · rw [if_neg hexp, if_neg hexp, List.append_nil]
        exact ⟨⟨fun h => absurd h (failedForSize_parseResponse _ _ _),
            fun h => absurd h hhdr⟩,
          fun _ => ⟨parseResponse_parsed _ _ _, parseResponse_response _ _ _⟩⟩
  · intro env n request expectingPayload error sock msg hconnect hser hsend
    rw [transactRtspMessageTcp_sent env n request expectingPayload error sock msg
      hconnect hser hsend]
    by_cases h : RTSP_MAX_RESP_SIZE ≤ (delivered (env.recv n)).length
    · rw [if_pos h]
      exact ⟨⟨fun _ => h, fun _ => ⟨Or.inl rfl, rfl⟩⟩, fun h2 => absurd h (by omega)⟩
    · rw [if_neg h]
      exact ⟨⟨fun h2 => absurd h2 (failedForSize_parseResponse _ _ _),
          fun h2 => absurd h2 h⟩,
        fun _ => ⟨parseResponse_parsed _ _ _, parseResponse_response _ _ _⟩⟩

/-- C6 as stated fails for the stream variant: a reply of exactly `RTSP_MAX_RESP_SIZE`
bytes, which does not exceed the bound, is failed for size and the codec is not invoked. -/
theorem full_buffer_rejected :
    (delivered (fullBufferEnv.recv 0)).length = RTSP_MAX_RESP_SIZE ∧
    failedForSize (transactRtspMessageTcp fullBufferEnv 0 optionsRequest 0 (-1)) ∧
    (transactRtspMessageTcp fullBufferEnv 0 optionsRequest 0 (-1)).parsed = none ∧
    (transactRtspMessageTcp fullBufferEnv 0 optionsRequest 0 (-1)).response = none := by
  have hchunk : fullChunk.length = RTSP_MAX_RESP_SIZE := List.length_replicate _ _
  have hne : fullChunk ≠ [] := by
    intro h
    rw [h] at hchunk
    exact absurd hchunk (by decide)
  have hrecv : fullBufferEnv.recv 0 = [RecvEvent.data fullChunk, RecvEvent.data []] := rfl
  have hdel : delivered (fullBufferEnv.recv 0) = fullChunk ++ [] := by
    rw [hrecv, delivered, if_neg hne, delivered, if_pos rfl]
  have hlen : (delivered (fullBufferEnv.recv 0)).length = RTSP_MAX_RESP_SIZE := by
    rw [hdel, List.append_nil, hchunk]
  have hsent := transactRtspMessageTcp_sent fullBufferEnv 0 optionsRequest 0 (-1) 3 []
    rfl rfl (by decide)
  rw [if_pos (Nat.le_of_eq hlen.symm)] at hsent
  rw [hsent]
  exact ⟨hlen, Or.inl rfl, rfl, rfl⟩

/-- At inputs of C6: a two-packet ENet reply and a one-chunk stream reply, both within
the bound, reach the codec in full. -/
theorem response_size_bound_witness :
    ((transactRtspMessageEnet (scriptedEnv 5 0 allOk) 1 optionsRequest 1 (-1)).parsed
        = some [1] ∧
      (transactRtspMessageEnet (scriptedEnv 5 0 allOk) 1 optionsRequest 1 (-1)).response
        = some ok200) ∧
    ((transactRtspMessageTcp (scriptedEnv 4 0 allOk) 0 optionsRequest 0 (-1)).parsed
        = some [0] ∧
      (transactRtspMessageTcp (scriptedEnv 4 0 allOk) 0 optionsRequest 0 (-1)).response
        = some ok200) :=
  ⟨(response_size_bound.1 (scriptedEnv 5 0 allOk) 1 optionsRequest 1 (-1) []
      rfl rfl (fun _ => rfl) (by decide) (fun _ => by decide)).2 (by decide),
   (response_size_bound.2 (scriptedEnv 4 0 allOk) 0 optionsRequest 0 (-1) 3 []
      rfl rfl (by decide)).2 (by decide)⟩

/-- C7, as amended. In the stream variant, once the request is sent: when the reads bring
non-empty chunks that stay below `RTSP_MAX_RESP_SIZE` and the next read returns 0 (orderly
close) or a negative value (error), the loop ends there in either case, the accumulated
bytes are handed to the codec, and the transaction succeeds exactly when the codec parses
them. A read error after successful reads is treated like an orderly close. -/
theorem read_loop_ends_on_close_or_error (env : Env) (n : Nat) (request : RTSP_MESSAGE)
    (expectingPayload error : Int) (sock : Nat) (msg : Bytes)
    (chunks : List Bytes) (ev : RecvEvent) (rest : List RecvEvent)
    (hconnect : env.connectTcpSocket n = some sock)
    (hserialize : env.serializeRtspMessage request = some msg)
    (hsend : env.send n msg ≠ SOCKET_ERROR)
    (hrecv : env.recv n = chunks.map RecvEvent.data ++ ev :: rest)
    (hchunks : ∀ c ∈ chunks, c ≠ [])
    (hev : ev = RecvEvent.failure ∨ ev = RecvEvent.data [])
    (hsize : (chunkBytes chunks).length < RTSP_MAX_RESP_SIZE) :
    (transactRtspMessageTcp env n request expectingPayload error).parsed
      = some (chunkBytes chunks) ∧
    (transactRtspMessageTcp env n request expectingPayload error).response
      = env.parseRtspMessage (chunkBytes chunks) := by
  have hdel : delivered (env.recv n) = chunkBytes chunks := by
    rw [hrecv]; exact chunkBytes_delivered chunks ev rest hchunks hev
  rw [transactRtspMessageTcp_sent env n request expectingPayload error sock msg
    hconnect hserialize hsend, hdel, if_neg (Nat.not_le.mpr hsize)]
  exact ⟨parseResponse_parsed _ _ _, parseResponse_response _ _ _⟩

/-- C7 as stated fails: one read succeeds, the next read returns an error, and the
transaction succeeds with the bytes read so far. -/
theorem read_error_accepted :
    resetAfterReplyEnv.recv 0 = [RecvEvent.data [0], RecvEvent.failure] ∧
    (transactRtspMessageTcp resetAfterReplyEnv 0 optionsRequest 0 (-1)).parsed = some [0] ∧
    (transactRtspMessageTcp resetAfterReplyEnv 0 optionsRequest 0 (-1)).response
      = some ok200 ∧
    (performRtspHandshake resetAfterReplyEnv initialState).responseAt 0 = some ok200 := by
  decide

/-- At an input of C7: the connection fails after the one-byte reply was read. -/
theorem read_loop_ends_on_close_or_error_witness :
    (transactRtspMessageTcp resetAfterReplyEnv 0 optionsRequest 0 (-1)).parsed = some [0] ∧
    (transactRtspMessageTcp resetAfterReplyEnv 0 optionsRequest 0 (-1)).response
      = some ok200 :=
  read_loop_ends_on_close_or_error resetAfterReplyEnv 0 optionsRequest 0 (-1) 3 []
    [[0]] RecvEvent.failure [] rfl rfl (by decide) rfl (by decide) (Or.inl rfl) (by decide)

/-! ## The request functions -/

theorem addOption_cases (env : Env) (st : State) (msg : RTSP_MESSAGE) (o c : String) :
    (∃ m, addOption env st msg o c = (none, { st with mallocs := m }) ∧
      ∃ k, k < st.mallocs + 3 ∧ env.malloc k = false) ∨
    addOption env st msg o c =
      (some (withOptions msg [⟨o, c⟩]), { st with mallocs := st.mallocs + 3 }) := by
  unfold addOption createOptionItem
  cases h0 : env.malloc st.mallocs with
  | false => exact Or.inl ⟨st.mallocs + 1, by simp, _, by omega, h0⟩
  | true =>
    cases h1 : env.malloc (st.mallocs + 1) with
    | false => exact Or.inl ⟨st.mallocs + 2, by simp, _, by omega, h1⟩
    | true =>
      cases h2 : env.malloc (st.mallocs + 2) with
      | false => exact Or.inl ⟨st.mallocs + 3, by simp, _, by omega, h2⟩
      | true => exact Or.inr (by simp [insertOption, withOptions])

theorem initializeRtspRequest_cases (env : Env) (st : State) (command target : String) :
    (∃ m, initializeRtspRequest env st command target =
      (none, { st with currentSeqNumber := st.currentSeqNumber + 1, mallocs := m }) ∧
      ∃ k, k < st.mallocs + 6 ∧ env.malloc k = false) ∨
    initializeRtspRequest env st command target =
      (some (initialRequest st command target),
       { st with currentSeqNumber := st.currentSeqNumber + 1, mallocs := st.mallocs + 6,
                 built := st.built ++ [initialRequest st command target] }) := by
  unfold initializeRtspRequest
  simp only []
  rcases addOption_cases env { st with currentSeqNumber := st.currentSeqNumber + 1 }
      (createRtspRequest command target "RTSP/1.0") "CSeq" (sprintf_d st.currentSeqNumber)
    with ⟨m, h, k, hk, hf⟩ | h
  · rw [h]; exact Or.inl ⟨m, rfl, k, Nat.lt_of_lt_of_le hk (Nat.le_add_right _ 3), hf⟩
  · rw [h]
    simp only []
    rcases addOption_cases env
        { { st with currentSeqNumber := st.currentSeqNumber + 1 } with
          mallocs := st.mallocs + 3 }
        (withOptions (createRtspRequest command target "RTSP/1.0")
          [⟨"CSeq", sprintf_d st.currentSeqNumber⟩])
        "X-GS-ClientVersion" (sprintf_d st.rtspClientVersion)
      with ⟨m2, h2, k, hk, hf2⟩ | h2
    · rw [h2]; exact Or.inl ⟨m2, rfl, k, hk, hf2⟩
    · rw [h2]; exact Or.inr rfl

theorem localFailure_of_malloc {env : Env} {st : State} {a b : Nat}
    (h : ∃ k, k < a ∧ env.malloc k = false) (hab : a ≤ b) : LocalFailure env st b := by
  obtain ⟨k, hk, hm⟩ := h
  exact Or.inl ⟨k, Nat.lt_of_lt_of_le hk hab, hm⟩

theorem requestOptions_requested (env : Env) (st : State) :
    Requested env st (initialRequest st "OPTIONS" st.rtspTargetUrl)
      (initialRequest st "OPTIONS" st.rtspTargetUrl) 0 (requestOptions env st) := by
  unfold requestOptions
  rcases initializeRtspRequest_cases env st "OPTIONS" st.rtspTargetUrl with ⟨m, h, hf⟩ | h
  · rw [h]
    exact Requested.notSent _ ⟨rfl, rfl, rfl, rfl, rfl, rfl, rfl, rfl⟩ rfl (Or.inl rfl)
      (localFailure_of_malloc hf
        (by simp [describeRequest, setupRequest, playRequest, announceRequest,
            withOptions, initialRequest, createRtspRequest]))
  · rw [h]
    exact Requested.sent _ ⟨rfl, rfl, rfl, rfl, rfl, rfl, rfl, rfl⟩ rfl rfl
      (by simp [describeRequest, setupRequest, playRequest, announceRequest,
          withOptions, initialRequest, createRtspRequest])

theorem requestDescribe_requested (env : Env) (st : State) :
    Requested env st (initialRequest st "DESCRIBE" st.rtspTargetUrl)
      (describeRequest st) 1 (requestDescribe env st) := by
  unfold requestDescribe
  rcases initializeRtspRequest_cases env st "DESCRIBE" st.rtspTargetUrl with ⟨m, h, hf⟩ | h
  · rw [h]
    exact Requested.notSent _ ⟨rfl, rfl, rfl, rfl, rfl, rfl, rfl, rfl⟩ rfl (Or.inl rfl)
      (localFailure_of_malloc hf
        (by simp [describeRequest, setupRequest, playRequest, announceRequest,
            withOptions, initialRequest, createRtspRequest]))
  · rw [h]
    simp only []
    rcases addOption_cases env _ (initialRequest st "DESCRIBE" st.rtspTargetUrl)
        "Accept" "application/sdp" with ⟨m0, h0, hf⟩ | h0
    · rw [h0]
      exact Requested.notSent _ ⟨rfl, rfl, rfl, rfl, rfl, rfl, rfl, rfl⟩ rfl (Or.inr rfl)
        (localFailure_of_malloc hf
          (by simp [describeRequest, setupRequest, playRequest, announceRequest,
              withOptions, initialRequest, createRtspRequest]))
    · rw [h0]
      simp only []
      rcases addOption_cases env _ (withOptions (initialRequest st "DESCRIBE" st.rtspTargetUrl) [⟨"Accept", "application/sdp"⟩])
          "If-Modified-Since" "Thu, 01 Jan 1970 00:00:00 GMT" with ⟨m1, h1, hf⟩ | h1
      · rw [h1]
        exact Requested.notSent _ ⟨rfl, rfl, rfl, rfl, rfl, rfl, rfl, rfl⟩ rfl (Or.inr rfl)
          (localFailure_of_malloc hf
            (by simp [describeRequest, setupRequest, playRequest, announceRequest,
                withOptions, initialRequest, createRtspRequest]))
      · rw [h1]
        exact Requested.sent _ ⟨rfl, rfl, rfl, rfl, rfl, rfl, rfl, rfl⟩ rfl rfl
          (by simp [describeRequest, setupRequest, playRequest, announceRequest,
              withOptions, initialRequest, createRtspRequest])

theorem playStream_requested (env : Env) (st : State) (target : String) :
    Requested env st (initialRequest st "PLAY" target)
      (playRequest st target) 0 (playStream env st target) := by
  unfold playStream
  rcases initializeRtspRequest_cases env st "PLAY" target with ⟨m, h, hf⟩ | h
  · rw [h]
    exact Requested.notSent _ ⟨rfl, rfl, rfl, rfl, rfl, rfl, rfl, rfl⟩ rfl (Or.inl rfl)
      (localFailure_of_malloc hf
        (by simp [describeRequest, setupRequest, playRequest, announceRequest,
            withOptions, initialRequest, createRtspRequest]))
  · rw [h]
    simp only []
    rcases addOption_cases env _ (initialRequest st "PLAY" target)
        "Session" st.sessionIdString with ⟨m0, h0, hf⟩ | h0
    · rw [h0]
      exact Requested.notSent _ ⟨rfl, rfl, rfl, rfl, rfl, rfl, rfl, rfl⟩ rfl (Or.inr rfl)
        (localFailure_of_malloc hf
          (by simp [describeRequest, setupRequest, playRequest, announceRequest,
              withOptions, initialRequest, createRtspRequest]))
    · rw [h0]
      exact Requested.sent _ ⟨rfl, rfl, rfl, rfl, rfl, rfl, rfl, rfl⟩ rfl rfl
        (by simp [describeRequest, setupRequest, playRequest, announceRequest,
            withOptions, initialRequest, createRtspRequest])

theorem sendVideoAnnounce_requested (env : Env) (st : State) :
    Requested env st (initialRequest st "ANNOUNCE" "streamid=video")
      (announceRequest st
        ((env.getSdpPayloadForStreamConfig st.rtspClientVersion).getD ("", 0))) 0 (sendVideoAnnounce env st) := by
  unfold sendVideoAnnounce
  rcases initializeRtspRequest_cases env st "ANNOUNCE" "streamid=video" with ⟨m, h, hf⟩ | h
  · rw [h]
    exact Requested.notSent _ ⟨rfl, rfl, rfl, rfl, rfl, rfl, rfl, rfl⟩ rfl (Or.inl rfl)
      (localFailure_of_malloc hf
        (by simp [describeRequest, setupRequest, playRequest, announceRequest,
            withOptions, initialRequest, createRtspRequest]))
  · rw [h]
    simp only []
    rcases addOption_cases env _ (initialRequest st "ANNOUNCE" "streamid=video")
        "Session" st.sessionIdString with ⟨m0, h0, hf⟩ | h0
    · rw [h0]
      exact Requested.notSent _ ⟨rfl, rfl, rfl, rfl, rfl, rfl, rfl, rfl⟩ rfl (Or.inr rfl)
        (localFailure_of_malloc hf
          (by simp [describeRequest, setupRequest, playRequest, announceRequest,
              withOptions, initialRequest, createRtspRequest]))
    · rw [h0]
      simp only []
      rcases addOption_cases env _ (withOptions (initialRequest st "ANNOUNCE" "streamid=video") [⟨"Session", st.sessionIdString⟩])
          "Content-type" "application/sdp" with ⟨m1, h1, hf⟩ | h1
      · rw [h1]
        exact Requested.notSent _ ⟨rfl, rfl, rfl, rfl, rfl, rfl, rfl, rfl⟩ rfl (Or.inr rfl)
          (localFailure_of_malloc hf
            (by simp [describeRequest, setupRequest, playRequest, announceRequest,
                withOptions, initialRequest, createRtspRequest]))
      · rw [h1]
        simp only []
        cases hsdp : env.getSdpPayloadForStreamConfig st.rtspClientVersion with
        | none =>
          exact Requested.notSent _ ⟨rfl, rfl, rfl, rfl, rfl, rfl, rfl, rfl⟩ rfl (Or.inr rfl) (Or.inr hsdp)
        | some sdp =>
          obtain ⟨payload, payloadLength⟩ := sdp
          simp only [Option.getD_some]
          rcases addOption_cases env _ ({ withOptions (withOptions (initialRequest st "ANNOUNCE" "streamid=video") [⟨"Session", st.sessionIdString⟩]) [⟨"Content-type", "application/sdp"⟩] with
          payload := some payload, payloadLength := payloadLength })
              "Content-length" (sprintf_d payloadLength) with ⟨m3, h3, hf⟩ | h3
          · rw [h3]
            exact Requested.notSent _ ⟨rfl, rfl, rfl, rfl, rfl, rfl, rfl, rfl⟩ rfl (Or.inr rfl)
              (localFailure_of_malloc hf
                (by simp [describeRequest, setupRequest, playRequest, announceRequest,
                    withOptions, initialRequest, createRtspRequest]))
          · rw [h3]
            exact Requested.sent _ ⟨rfl, rfl, rfl, rfl, rfl, rfl, rfl, rfl⟩ rfl rfl
              (by simp [describeRequest, setupRequest, playRequest, announceRequest,
                  withOptions, initialRequest, createRtspRequest])

theorem setupStream_requested (env : Env) (st : State) (target : String) :
    Requested env st (initialRequest st "SETUP" target)
      (setupRequest st target) 0 (setupStream env st target) := by
  unfold setupStream
  by_cases hs : st.hasSessionId ≠ 0
  · have hfull : setupRequest st target =
        withOptions (withOptions (withOptions (initialRequest st "SETUP" target)
          [⟨"Session", st.sessionIdString⟩]) [⟨"Transport", " "⟩])
          [⟨"If-Modified-Since", "Thu, 01 Jan 1970 00:00:00 GMT"⟩] := by
      unfold setupRequest; rw [if_pos hs]
    rw [hfull]
    rcases initializeRtspRequest_cases env st "SETUP" target with ⟨m, h, hf⟩ | h
    · rw [h]
      exact Requested.notSent _ ⟨rfl, rfl, rfl, rfl, rfl, rfl, rfl, rfl⟩ rfl (Or.inl rfl)
        (localFailure_of_malloc hf
          (by simp [describeRequest, setupRequest, playRequest, announceRequest,
              withOptions, initialRequest, createRtspRequest]))
    · rw [h]
      simp only []
      rw [if_pos hs]
      rcases addOption_cases env _ (initialRequest st "SETUP" target)
          "Session" st.sessionIdString with ⟨m1, h1, hf⟩ | h1
      · rw [h1]
        exact Requested.notSent _ ⟨rfl, rfl, rfl, rfl, rfl, rfl, rfl, rfl⟩ rfl (Or.inr rfl)
          (localFailure_of_malloc hf
            (by simp [describeRequest, setupRequest, playRequest, announceRequest,
                withOptions, initialRequest, createRtspRequest]))
      · rw [h1]
        simp only [setupStreamTransport]
        rcases addOption_cases env _
            (withOptions (initialRequest st "SETUP" target) [⟨"Session", st.sessionIdString⟩])
            "Transport" " " with ⟨m2, h2, hf⟩ | h2
        · rw [h2]
          exact Requested.notSent _ ⟨rfl, rfl, rfl, rfl, rfl, rfl, rfl, rfl⟩ rfl (Or.inr rfl)
            (localFailure_of_malloc hf
              (by simp [describeRequest, setupRequest, playRequest, announceRequest,
                  withOptions, initialRequest, createRtspRequest]))
        · rw [h2]
          simp only []
          rcases addOption_cases env _
              (withOptions (withOptions (initialRequest st "SETUP" target)
                [⟨"Session", st.sessionIdString⟩]) [⟨"Transport", " "⟩])
              "If-Modified-Since" "Thu, 01 Jan 1970 00:00:00 GMT" with ⟨m3, h3, hf⟩ | h3
          · rw [h3]
            exact Requested.notSent _ ⟨rfl, rfl, rfl, rfl, rfl, rfl, rfl, rfl⟩ rfl (Or.inr rfl)
              (localFailure_of_malloc hf
                (by simp [describeRequest, setupRequest, playRequest, announceRequest,
                    withOptions, initialRequest, createRtspRequest]))
          · rw [h3]
            exact Requested.sent _ ⟨rfl, rfl, rfl, rfl, rfl, rfl, rfl, rfl⟩ rfl rfl
              (by simp [describeRequest, setupRequest, playRequest, announceRequest,
                  withOptions, initialRequest, createRtspRequest])
  · have hfull : setupRequest st target =
        withOptions (withOptions (initialRequest st "SETUP" target) [⟨"Transport", " "⟩])
          [⟨"If-Modified-Since", "Thu, 01 Jan 1970 00:00:00 GMT"⟩] := by
      unfold setupRequest; rw [if_neg hs]
    rw [hfull]
    rcases initializeRtspRequest_cases env st "SETUP" target with ⟨m, h, hf⟩ | h
    · rw [h]
      exact Requested.notSent _ ⟨rfl, rfl, rfl, rfl, rfl, rfl, rfl, rfl⟩ rfl (Or.inl rfl)
        (localFailure_of_malloc hf
          (by simp [describeRequest, setupRequest, playRequest, announceRequest,
              withOptions, initialRequest, createRtspRequest]))
    · rw [h]
      simp only []
      rw [if_neg hs]
      simp only [setupStreamTransport]
      rcases addOption_cases env _ (initialRequest st "SETUP" target)
          "Transport" " " with ⟨m2, h2, hf⟩ | h2
      · rw [h2]
        exact Requested.notSent _ ⟨rfl, rfl, rfl, rfl, rfl, rfl, rfl, rfl⟩ rfl (Or.inr rfl)
          (localFailure_of_malloc hf
            (by simp [describeRequest, setupRequest, playRequest, announceRequest,
                withOptions, initialRequest, createRtspRequest]))
      · rw [h2]
        simp only []
        rcases addOption_cases env _
            (withOptions (initialRequest st "SETUP" target) [⟨"Transport", " "⟩])
            "If-Modified-Since" "Thu, 01 Jan 1970 00:00:00 GMT" with ⟨m3, h3, hf⟩ | h3
        · rw [h3]
          exact Requested.notSent _ ⟨rfl, rfl, rfl, rfl, rfl, rfl, rfl, rfl⟩ rfl (Or.inr rfl)
            (localFailure_of_malloc hf
              (by simp [describeRequest, setupRequest, playRequest, announceRequest,
                  withOptions, initialRequest, createRtspRequest]))
        · rw [h3]
          exact Requested.sent _ ⟨rfl, rfl, rfl, rfl, rfl, rfl, rfl, rfl⟩ rfl rfl
            (by simp [describeRequest, setupRequest, playRequest, announceRequest,
                withOptions, initialRequest, createRtspRequest])

/-! ## The blocks of the handshake -/

theorem toExcept_of_none (result : TransactResult) (h : result.response = none) :
    result.toExcept = Except.error result.error := by
  unfold TransactResult.toExcept; rw [h]

theorem toExcept_of_some (result : TransactResult) (response : RTSP_MESSAGE)
    (h : result.response = some response) :
    result.toExcept = Except.ok response := by
  unfold TransactResult.toExcept; rw [h]

theorem frame_Limelog {st st1 : State} (h : Frame st st1) (line : String) :
    Frame st (Limelog st1 line) :=
  ⟨h.seq, h.url, h.session, h.hasSession, h.version, h.format, h.client, h.peer⟩

theorem requireStatus200_spec (env : Env) (n : Nat) (st : State) (failedLine statusLine : String)
    (out : Except Int RTSP_MESSAGE × State)
    (h : Requested env st (stepFirst n st) (stepFull env n st) (stepExpecting n) out) :
    GateSpec env n st (requireStatus200 failedLine statusLine out) := by
  cases h with
  | notSent st1 hf he hb hl =>
    exact Stopped.notSent (frame_Limelog hf _) he hb rfl hl
  | sent st1 hf he hb hm =>
    have hsent : ∀ line, SentIn env n st (Limelog st1 line) :=
      fun line => ⟨frame_Limelog hf line, he, hb, hm⟩
    cases hresp : (transactRtspMessage env st.exchanges.length (stepFull env n st)
        (stepExpecting n) (-1)).response with
    | none =>
      rw [toExcept_of_none _ hresp]
      exact Stopped.failed (hsent _) hresp rfl
    | some response =>
      rw [toExcept_of_some _ _ hresp]
      unfold requireStatus200
      by_cases hstatus : response.statusCode ≠ 200
      · simp only [hstatus, if_true, ne_eq, not_false_eq_true]
        exact Stopped.status response (hsent _) hresp hstatus rfl
      · have h200 : response.statusCode = 200 := by
          by_contra hc; exact hstatus hc
        simp only [h200, if_false, ne_eq, not_true_eq_false]
        exact ⟨⟨hf, he, hb, hm⟩, hresp, h200⟩

theorem advanced_of_sentIn (env : Env) (n : Nat) (st st1 : State) (response : RTSP_MESSAGE)
    (h1 : n ≠ 1) (h2 : n ≠ 2) (hs : SentIn env n st st1)
    (hr : (stepExchange env n st).result.response = some response)
    (h200 : response.statusCode = 200) : Advanced env n st st1 :=
  { seq := hs.frame.seq, url := hs.frame.url, version := hs.frame.version,
    client := hs.frame.client, peer := hs.frame.peer,
    exchanges := hs.exchanges, built := hs.built, mallocs := hs.mallocs,
    ok := ⟨response, hr, h200⟩,
    format := fun _ => hs.frame.format,
    describe := fun h => absurd h h1,
    session := fun _ => ⟨hs.frame.session, hs.frame.hasSession⟩,
    setup := fun h => absurd h h2 }

theorem simpleBlock_spec (env : Env) (n : Nat) (st : State) (h1 : n ≠ 1) (h2 : n ≠ 2)
    (gate : Except Run (RTSP_MESSAGE × State)) :
    GateSpec env n st gate →
    BlockSpec env n st
      (match gate with
       | Except.error r => Except.error r
       | Except.ok (_, st1) => Except.ok st1) := by
  intro hg
  cases gate with
  | error r => exact hg
  | ok p =>
    obtain ⟨response, st1⟩ := p
    exact advanced_of_sentIn env n st st1 response h1 h2 hg.1 hg.2.1 hg.2.2

theorem handshakeOptions_spec (env : Env) (st : State) :
    BlockSpec env 0 st (handshakeOptions env st) :=
  simpleBlock_spec env 0 st (by decide) (by decide) _
    (requireStatus200_spec env 0 st _ _ _ (requestOptions_requested env st))

theorem handshakeSetupVideo_spec (env : Env) (st : State) :
    BlockSpec env 3 st (handshakeSetupVideo env st) :=
  simpleBlock_spec env 3 st (by decide) (by decide) _
    (requireStatus200_spec env 3 st _ _ _ (setupStream_requested env st "streamid=video"))

theorem handshakeAnnounce_spec (env : Env) (st : State) :
    BlockSpec env 4 st (handshakeAnnounce env st) :=
  simpleBlock_spec env 4 st (by decide) (by decide) _
    (requireStatus200_spec env 4 st _ _ _ (sendVideoAnnounce_requested env st))

theorem handshakePlayVideo_spec (env : Env) (st : State) :
    BlockSpec env 5 st (handshakePlayVideo env st) :=
  simpleBlock_spec env 5 st (by decide) (by decide) _
    (requireStatus200_spec env 5 st _ _ _ (playStream_requested env st "streamid=video"))

theorem handshakePlayAudio_spec (env : Env) (st : State) :
    BlockSpec env 6 st (handshakePlayAudio env st) :=
  simpleBlock_spec env 6 st (by decide) (by decide) _
    (requireStatus200_spec env 6 st _ _ _ (playStream_requested env st "streamid=audio"))

theorem handshakeDescribe_spec (env : Env) (st : State) :
    BlockSpec env 1 st (handshakeDescribe env st) := by
  have hg := requireStatus200_spec env 1 st "RTSP DESCRIBE request failed: %d\n"
    "RTSP DESCRIBE request failed: %d\n" _ (requestDescribe_requested env st)
  unfold handshakeDescribe
  cases hgate : requireStatus200 "RTSP DESCRIBE request failed: %d\n"
      "RTSP DESCRIBE request failed: %d\n" (requestDescribe env st) with
  | error r => rw [hgate] at hg; exact hg
  | ok p =>
    obtain ⟨response, st1⟩ := p
    rw [hgate] at hg
    obtain ⟨hs, hr, h200⟩ := hg
    have base : ∀ fmt : VideoFormat,
        fmt = negotiatedFormat env.supportsHevc response.payload →
        (env.supportsHevc ≠ 0 → response.payload ≠ none) →
        Advanced env 1 st { st1 with NegotiatedVideoFormat := fmt } := by
      intro fmt hfmt hpay
      exact
        { seq := hs.frame.seq, url := hs.frame.url, version := hs.frame.version,
          client := hs.frame.client, peer := hs.frame.peer,
          exchanges := hs.exchanges, built := hs.built, mallocs := hs.mallocs,
          ok := ⟨response, hr, h200⟩,
          format := fun h => absurd rfl h,
          describe := fun _ => ⟨response, hr, hfmt, hpay⟩,
          session := fun _ => ⟨hs.frame.session, hs.frame.hasSession⟩,
          setup := fun h => absurd h (by decide) }
    simp only []
    by_cases hhevc : env.supportsHevc ≠ 0
    · rw [if_pos hhevc]
      cases hp : response.payload with
      | none =>
        exact Stopped.noPayload response rfl hs hr h200 hhevc hp rfl
      | some payload =>
        simp only []
        by_cases hstr : strstr payload "sprop-parameter-sets=AAAAAU" = true
        · rw [if_pos hstr]
          refine base _ ?_ (fun _ => by rw [hp]; exact Option.some_ne_none _)
          rw [hp]; simp only [negotiatedFormat, hhevc, hstr, and_self, if_true,
            ne_eq, not_false_eq_true]
        · rw [if_neg hstr]
          refine base _ ?_ (fun _ => by rw [hp]; exact Option.some_ne_none _)
          rw [hp]; simp [negotiatedFormat, hstr]
    · rw [if_neg hhevc]
      refine base _ ?_ (fun h => absurd h hhevc)
      cases hp : response.payload with
      | none => rfl
      | some payload => simp only [negotiatedFormat, hhevc, false_and, if_false]

theorem handshakeSetupAudio_spec (env : Env) (st : State) :
    BlockSpec env 2 st (handshakeSetupAudio env st) := by
  have hg := requireStatus200_spec env 2 st "RTSP SETUP streamid=audio request failed: %d\n"
    "RTSP SETUP streamid=audio request failed: %d\n" _
    (setupStream_requested env st "streamid=audio")
  unfold handshakeSetupAudio
  cases hgate : requireStatus200 "RTSP SETUP streamid=audio request failed: %d\n"
      "RTSP SETUP streamid=audio request failed: %d\n"
      (setupStream env st "streamid=audio") with
  | error r => rw [hgate] at hg; exact hg
  | ok p =>
    obtain ⟨response, st1⟩ := p
    rw [hgate] at hg
    obtain ⟨hs, hr, h200⟩ := hg
    simp only []
    cases hsess : getOptionContent response.options "Session" with
    | none =>
      exact Stopped.noSession response rfl
        ⟨frame_Limelog hs.frame _, hs.exchanges, hs.built, hs.mallocs⟩
        hr h200 hsess rfl
    | some sessionId =>
      simp only []
      by_cases hlen : strlen sessionId + 1 > 16
      · rw [if_pos hlen]
        exact Stopped.overflow response sessionId rfl hs hr h200 hsess hlen rfl
      · rw [if_neg hlen]
        exact
          { seq := hs.frame.seq, url := hs.frame.url, version := hs.frame.version,
            client := hs.frame.client, peer := hs.frame.peer,
            exchanges := hs.exchanges, built := hs.built, mallocs := hs.mallocs,
            ok := ⟨response, hr, h200⟩,
            format := fun _ => hs.frame.format,
            describe := fun h => absurd h (by decide),
            session := fun h => absurd rfl h,
            setup := fun _ => ⟨response, hr, hsess, Nat.le_of_not_gt hlen, rfl⟩ }

theorem shape_stepFull (env : Env) (n : Nat) (st : State) (hi : Boundary env n st) (hn : n < 7) :
    Shape env st.sessionIdString n (stepFull env n st) := by
  have hseq := hi.seq
  have hurl := hi.url
  have h0 : n < 3 → st.hasSessionId = 0 := hi.nosession
  have h1 : 3 ≤ n → st.hasSessionId = 1 := fun h => (hi.session h).1
  interval_cases n
  · constructor <;>
      simp [stepFull, initialRequest, createRtspRequest, getOptionContent, sessionValues,
        stepCommand, stepTarget, hseq, hurl]
  · constructor <;>
      simp [stepFull, describeRequest, withOptions, initialRequest, createRtspRequest,
        getOptionContent, sessionValues, stepCommand, stepTarget, hseq, hurl]
  · constructor <;>
      simp [stepFull, setupRequest, withOptions, initialRequest, createRtspRequest,
        getOptionContent, sessionValues, stepCommand, stepTarget, hseq, hurl, h0]
  · constructor <;>
      simp [stepFull, setupRequest, withOptions, initialRequest, createRtspRequest,
        getOptionContent, sessionValues, stepCommand, stepTarget, hseq, hurl, h1]
  · constructor <;>
      simp [stepFull, announceRequest, withOptions, initialRequest, createRtspRequest,
        getOptionContent, sessionValues, stepCommand, stepTarget, hseq, hurl]
  · constructor <;>
      simp [stepFull, playRequest, withOptions, initialRequest, createRtspRequest,
        getOptionContent, sessionValues, stepCommand, stepTarget, hseq, hurl]
  · constructor <;>
      simp [stepFull, playRequest, withOptions, initialRequest, createRtspRequest,
        getOptionContent, sessionValues, stepCommand, stepTarget, hseq, hurl]

theorem cseq_stepFirst (env : Env) (n : Nat) (st : State) (hi : Boundary env n st) :
    getOptionContent (stepFirst n st).options "CSeq" = some (sprintf_d ((n : Int) + 1)) := by
  simp [stepFirst, initialRequest, createRtspRequest, getOptionContent, hi.seq]

theorem getElem?_snoc {α : Type} {l : List α} {a x : α} {i : Nat}
    (h : (l ++ [a])[i]? = some x) : l[i]? = some x ∨ (i = l.length ∧ x = a) := by
  by_cases hi : i < l.length
  · rw [List.getElem?_append_left hi] at h
    exact Or.inl h
  · have hle : l.length ≤ i := Nat.le_of_not_lt hi
    rw [List.getElem?_append_right hle] at h
    by_cases h0 : i - l.length = 0
    · rw [h0] at h
      simp only [List.getElem?_cons_zero, Option.some.injEq] at h
      exact Or.inr ⟨by omega, h.symm⟩
    · obtain ⟨k, hk⟩ := Nat.exists_eq_succ_of_ne_zero h0
      rw [hk] at h
      simp at h

theorem getElem?_snoc_left {α : Type} {l : List α} {a x : α} {i : Nat}
    (h : l[i]? = some x) : (l ++ [a])[i]? = some x := by
  have hi : i < l.length := by
    by_contra hc
    rw [List.getElem?_eq_none (Nat.le_of_not_lt hc)] at h
    exact Option.noConfusion h
  rw [List.getElem?_append_left hi]
  exact h

theorem getElem?_snoc_length {α : Type} (l : List α) (a : α) :
    (l ++ [a])[l.length]? = some a := by
  rw [List.getElem?_append_right (Nat.le_refl _)]
  simp

theorem getElem?_lt_length {α : Type} {l : List α} {x : α} {i : Nat}
    (h : l[i]? = some x) : i < l.length := by
  by_contra hc
  rw [List.getElem?_eq_none (Nat.le_of_not_lt hc)] at h
  exact Option.noConfusion h

theorem shape_transfer {env : Env} {s s1 : String} {i : Nat} {request : RTSP_MESSAGE}
    (h : Shape env s i request) (hs : i < 3 ∨ s1 = s) : Shape env s1 i request := by
  refine ⟨h.command, h.target, h.cseq, ?_⟩
  rw [h.session]
  rcases hs with hlt | heq
  · simp only [hlt, if_true]
  · rw [heq]

theorem stepMallocs_succ (env : Env) (n : Nat) (st : State) (hi : Boundary env n st)
    (hn : n < 7) :
    stepMallocs n + 3 * (stepFull env n st).options.length = stepMallocs (n + 1) := by
  have h0 : n < 3 → st.hasSessionId = 0 := hi.nosession
  have h1 : 3 ≤ n → st.hasSessionId = 1 := fun h => (hi.session h).1
  interval_cases n
  · simp [stepMallocs, stepFull, initialRequest]
  · simp [stepMallocs, stepFull, describeRequest, withOptions, initialRequest]
  · simp [stepMallocs, stepFull, setupRequest, withOptions, initialRequest, h0]
  · simp [stepMallocs, stepFull, setupRequest, withOptions, initialRequest, h1]
  · simp [stepMallocs, stepFull, announceRequest, withOptions, initialRequest]
  · simp [stepMallocs, stepFull, playRequest, withOptions, initialRequest]
  · simp [stepMallocs, stepFull, playRequest, withOptions, initialRequest]

theorem stepMallocs_le (n : Nat) (hn : n < 7) : stepMallocs (n + 1) ≤ stepMallocs 7 := by
  interval_cases n <;> decide

theorem stepFull_eq (env : Env) (n : Nat) (st : State) (hi : Boundary env n st) (hn : n < 7) :
    stepFull env n st = requestOfStep env st.sessionIdString n := by
  have hseq := hi.seq
  have hurl := hi.url
  have hver := hi.version
  have h0 : n < 3 → st.hasSessionId = 0 := hi.nosession
  have h1 : 3 ≤ n → st.hasSessionId = 1 := fun h => (hi.session h).1
  interval_cases n
  · simp [requestOfStep, stepState, stepFull, initialRequest, hseq, hurl, hver]
  · simp [requestOfStep, stepState, stepFull, describeRequest, initialRequest, hseq, hurl,
      hver]
  · simp [requestOfStep, stepState, stepFull, setupRequest, initialRequest, hseq, hurl,
      hver, h0]
  · simp [requestOfStep, stepState, stepFull, setupRequest, initialRequest, hseq, hurl,
      hver, h1]
  · simp [requestOfStep, stepState, stepFull, announceRequest, initialRequest, hseq, hurl,
      hver]
  · simp [requestOfStep, stepState, stepFull, playRequest, initialRequest, hseq, hurl, hver]
  · simp [requestOfStep, stepState, stepFull, playRequest, initialRequest, hseq, hurl, hver]

theorem requestOfStep_session (env : Env) (s s1 : String) (i : Nat) (h : i < 3 ∨ s1 = s) :
    requestOfStep env s1 i = requestOfStep env s i := by
  rcases h with hlt | heq
  · interval_cases i
    · rfl
    · rfl
    · simp [requestOfStep, stepState, stepFull, setupRequest, initialRequest]
  · rw [heq]

theorem boundary_advance (env : Env) (n : Nat) (st st2 : State)
    (hi : Boundary env n st) (hn : n < 7) (ha : Advanced env n st st2) :
    Boundary env (n + 1) st2 := by
  have hsess : n < 3 ∨ st2.sessionIdString = st.sessionIdString := by
    by_cases h : n < 3
    · exact Or.inl h
    · exact Or.inr (ha.session (by omega)).1
  refine
    { len := by rw [ha.exchanges, List.length_append, hi.len]; rfl
      blen := by rw [ha.built, List.length_append, hi.blen]; rfl
      seq := by rw [ha.seq, hi.seq]; push_cast; ring
      url := by rw [ha.url, hi.url]
      version := by rw [ha.version, hi.version]
      mallocs := by rw [ha.mallocs, hi.mallocs]; exact stepMallocs_succ env n st hi hn
      ok := ?_, transport := ?_, shape := ?_, request := ?_, cseq := ?_, nosession := ?_,
      session := ?_, codec := ?_ }
  · intro ex hex
    rw [ha.exchanges, List.mem_append] at hex
    rcases hex with h | h
    · exact hi.ok ex h
    · rw [List.mem_singleton] at h
      rw [h]; exact ha.ok
  · intro i ex hex
    rw [ha.exchanges] at hex
    rcases getElem?_snoc hex with h | ⟨hidx, hx⟩
    · exact hi.transport i ex h
    · rw [hx, hidx]; rfl
  · intro i ex hex
    rw [ha.exchanges] at hex
    rcases getElem?_snoc hex with h | ⟨hidx, hx⟩
    · have hlt : i < n := by have := getElem?_lt_length h; rw [hi.len] at this; exact this
      refine shape_transfer (hi.shape i ex h) ?_
      rcases hsess with h3 | heq
      · exact Or.inl (by omega)
      · exact Or.inr heq
    · rw [hi.len] at hidx
      subst hidx
      rw [hx]
      exact shape_transfer (shape_stepFull env i st hi hn) hsess
  · intro i ex hex
    rw [ha.exchanges] at hex
    rcases getElem?_snoc hex with h | ⟨hidx, hx⟩
    · have hlt : i < n := by have := getElem?_lt_length h; rw [hi.len] at this; exact this
      have hold := hi.request i ex h
      refine ⟨?_, hold.2⟩
      rw [hold.1]
      refine (requestOfStep_session env _ _ i ?_).symm
      rcases hsess with h3 | heq
      · exact Or.inl (by omega)
      · exact Or.inr heq
    · rw [hi.len] at hidx
      subst hidx
      rw [hx]
      refine ⟨?_, rfl⟩
      show stepFull env i st = _
      rw [stepFull_eq env i st hi hn]
      exact (requestOfStep_session env _ _ i hsess).symm
  · intro i m hm
    rw [ha.built] at hm
    rcases getElem?_snoc hm with h | ⟨hidx, hx⟩
    · exact hi.cseq i m h
    · rw [hi.blen] at hidx
      subst hidx
      rw [hx]
      exact cseq_stepFirst env i st hi
  · intro h
    rw [(ha.session (by omega)).2]
    exact hi.nosession (by omega)
  · intro h
    by_cases h2 : n = 2
    · obtain ⟨response, hr, hs, hl, hh⟩ := ha.setup h2
      refine ⟨hh, hl, stepExchange env n st, response, ?_, hr, hs⟩
      rw [ha.exchanges]
      have := getElem?_snoc_length st.exchanges (stepExchange env n st)
      rw [hi.len, h2] at this
      rw [h2]; exact this
    · have h3 : 3 ≤ n := by omega
      obtain ⟨hh, hl, ex, response, hex, hr, hs⟩ := hi.session h3
      obtain ⟨e1, e2⟩ := ha.session h2
      refine ⟨by rw [e2]; exact hh, by rw [e1]; exact hl, ex, response, ?_, hr,
        by rw [e1]; exact hs⟩
      rw [ha.exchanges]
      exact getElem?_snoc_left hex
  · intro h
    by_cases h1 : n = 1
    · obtain ⟨response, hr, hf, hp⟩ := ha.describe h1
      refine ⟨stepExchange env n st, response, ?_, hr, hf, hp⟩
      rw [ha.exchanges]
      have := getElem?_snoc_length st.exchanges (stepExchange env n st)
      rw [hi.len, h1] at this
      rw [h1]; exact this
    · have h2 : 2 ≤ n := by omega
      obtain ⟨ex, response, hex, hr, hf, hp⟩ := hi.codec h2
      refine ⟨ex, response, ?_, hr, by rw [ha.format h1]; exact hf, hp⟩
      rw [ha.exchanges]
      exact getElem?_snoc_left hex

theorem handshakeSetup_spec (env : Env) (st0 : State) :
    StepSpec env 0 (handshakeSetup env st0) := by
  have hb : ∀ st : State, st.exchanges = [] → st.built = [] → st.currentSeqNumber = 1 →
      st.rtspTargetUrl = "rtsp://" ++ env.urlAddr → st.hasSessionId = 0 →
      st.rtspClientVersion = clientVersion env → st.mallocs = 0 →
      Boundary env 0 st := by
    intro st he hbu hseq hurl hs hver hmal
    exact
      { len := by rw [he]; rfl
        blen := by rw [hbu]; rfl
        seq := by rw [hseq]; rfl
        url := hurl
        version := hver
        mallocs := hmal
        ok := by intro ex hex; rw [he] at hex; exact absurd hex (List.not_mem_nil _)
        transport := by intro i ex hex; rw [he] at hex; simp at hex
        shape := by intro i ex hex; rw [he] at hex; simp at hex
        request := by intro i ex hex; rw [he] at hex; simp at hex
        cseq := by intro i m hm; rw [hbu] at hm; simp at hm
        nosession := fun _ => hs
        session := fun h => absurd h (by decide)
        codec := fun h => absurd h (by decide) }
  unfold handshakeSetup
  simp only []
  by_cases hgen : env.ServerMajorVersion ≥ 5
  · rw [if_pos hgen]
    cases hc : env.enet_host_create with
    | none => exact Ended.setupFailed hgen rfl rfl rfl (Or.inl hc)
    | some host =>
      simp only []
      cases hp : env.enet_host_connect with
      | none => exact Ended.setupFailed hgen rfl rfl rfl (Or.inr (Or.inl hp))
      | some p =>
        simp only []
        by_cases hev : env.enet_connect_service.ret ≤ 0 ∨
            env.enet_connect_service.type ≠ ENetEventType.ENET_EVENT_TYPE_CONNECT
        · rw [if_pos hev]
          exact Ended.setupFailed hgen rfl rfl rfl (Or.inr (Or.inr hev))
        · rw [if_neg hev]
          exact hb _ rfl rfl rfl rfl rfl rfl rfl
  · rw [if_neg hgen]
    exact hb _ rfl rfl rfl rfl rfl rfl rfl

theorem ended_mono {env : Env} {k k1 : Nat} {r : Run} (h : Ended env k r) (hk : k ≤ k1) :
    Ended env k1 r := by
  cases h with
  | setupFailed h1 h2 h3 h4 h5 => exact Ended.setupFailed h1 h2 h3 h4 h5
  | stopped n st hn hb hs => exact Ended.stopped n st (Nat.lt_of_lt_of_le hn hk) hb hs

/-- One block of the chain: from a boundary state the block leaves the next boundary state
or the end of the run. -/
theorem block_step (env : Env) (n : Nat) (st : State) (out : Except Run State)
    (hb : Boundary env n st) (hn : n < 7) (hs : BlockSpec env n st out) :
    StepSpec env (n + 1) out := by
  cases out with
  | ok st2 => exact boundary_advance env n st st2 hb hn hs
  | error r => exact Ended.stopped n st (Nat.lt_succ_self n) hb hs

theorem handshakeThroughDescribe_spec (env : Env) (st0 : State) :
    StepSpec env 2 (handshakeThroughDescribe env st0) := by
  unfold handshakeThroughDescribe
  have h0 := handshakeSetup_spec env st0
  cases hs : handshakeSetup env st0 with
  | error r => rw [hs] at h0; exact ended_mono h0 (by decide)
  | ok st1 =>
    rw [hs] at h0
    simp only []
    have h1 := block_step env 0 st1 _ h0 (by decide) (handshakeOptions_spec env st1)
    cases ho : handshakeOptions env st1 with
    | error r => rw [ho] at h1; exact ended_mono h1 (by decide)
    | ok st2 =>
      rw [ho] at h1
      simp only []
      exact block_step env 1 st2 _ h1 (by decide) (handshakeDescribe_spec env st2)

theorem handshakeAfterDescribe_spec (env : Env) (st2 : State) (h2 : Boundary env 2 st2) :
    RunSpec env (handshakeAfterDescribe env st2) := by
  unfold handshakeAfterDescribe
  have h3 := block_step env 2 st2 _ h2 (by decide) (handshakeSetupAudio_spec env st2)
  cases e3 : handshakeSetupAudio env st2 with
  | error r => rw [e3] at h3; exact RunSpec.ended (ended_mono h3 (by decide))
  | ok st3 =>
    rw [e3] at h3
    simp only []
    have h4 := block_step env 3 st3 _ h3 (by decide) (handshakeSetupVideo_spec env st3)
    cases e4 : handshakeSetupVideo env st3 with
    | error r => rw [e4] at h4; exact RunSpec.ended (ended_mono h4 (by decide))
    | ok st4 =>
      rw [e4] at h4
      simp only []
      have h5 := block_step env 4 st4 _ h4 (by decide) (handshakeAnnounce_spec env st4)
      cases e5 : handshakeAnnounce env st4 with
      | error r => rw [e5] at h5; exact RunSpec.ended (ended_mono h5 (by decide))
      | ok st5 =>
        rw [e5] at h5
        simp only []
        have h6 := block_step env 5 st5 _ h5 (by decide) (handshakePlayVideo_spec env st5)
        cases e6 : handshakePlayVideo env st5 with
        | error r => rw [e6] at h6; exact RunSpec.ended (ended_mono h6 (by decide))
        | ok st6 =>
          rw [e6] at h6
          simp only []
          have h7 := block_step env 6 st6 _ h6 (by decide) (handshakePlayAudio_spec env st6)
          cases e7 : handshakePlayAudio env st6 with
          | error r => rw [e7] at h7; exact RunSpec.ended (ended_mono h7 (by decide))
          | ok st7 =>
            rw [e7] at h7
            exact RunSpec.completed st7 h7 rfl

theorem performRtspHandshake_spec (env : Env) (st0 : State) :
    RunSpec env (performRtspHandshake env st0) := by
  unfold performRtspHandshake
  have h := handshakeThroughDescribe_spec env st0
  cases e : handshakeThroughDescribe env st0 with
  | error r => rw [e] at h; exact RunSpec.ended (ended_mono h (by decide))
  | ok st2 => rw [e] at h; exact handshakeAfterDescribe_spec env st2 h

/-! ## The handshake -/

theorem stopped_frame {env : Env} {n : Nat} {st : State} {r : Run}
    (h : Stopped env n st r) : Frame st r.st := by
  cases h with
  | notSent hf _ _ _ _ => exact hf
  | failed hs _ _ => exact hs.frame
  | status _ hs _ _ _ => exact hs.frame
  | noPayload _ _ hs _ _ _ _ _ => exact hs.frame
  | noSession _ _ hs _ _ _ _ => exact hs.frame
  | overflow _ _ _ hs _ _ _ _ _ => exact hs.frame

theorem stopped_exchanges {env : Env} {n : Nat} {st : State} {r : Run}
    (h : Stopped env n st r) :
    r.st.exchanges = st.exchanges ∨
    r.st.exchanges = st.exchanges ++ [stepExchange env n st] := by
  cases h with
  | notSent _ he _ _ _ => exact Or.inl he
  | failed hs _ _ => exact Or.inr hs.exchanges
  | status _ hs _ _ _ => exact Or.inr hs.exchanges
  | noPayload _ _ hs _ _ _ _ _ => exact Or.inr hs.exchanges
  | noSession _ _ hs _ _ _ _ => exact Or.inr hs.exchanges
  | overflow _ _ _ hs _ _ _ _ _ => exact Or.inr hs.exchanges

theorem stopped_built {env : Env} {n : Nat} {st : State} {r : Run}
    (h : Stopped env n st r) :
    r.st.built = st.built ∨ r.st.built = st.built ++ [stepFirst n st] := by
  cases h with
  | notSent _ _ hb _ _ => exact hb
  | failed hs _ _ => exact Or.inr hs.built
  | status _ hs _ _ _ => exact Or.inr hs.built
  | noPayload _ _ hs _ _ _ _ _ => exact Or.inr hs.built
  | noSession _ _ hs _ _ _ _ => exact Or.inr hs.built
  | overflow _ _ _ hs _ _ _ _ _ => exact Or.inr hs.built

theorem cleanup_outcome (env : Env) (st : State) :
    (handshakeCleanup env st).outcome = Outcome.returned 0 := by
  unfold handshakeCleanup; split <;> rfl

theorem cleanup_exchanges (env : Env) (st : State) :
    (handshakeCleanup env st).st.exchanges = st.exchanges := by
  unfold handshakeCleanup; split <;> rfl

theorem cleanup_built (env : Env) (st : State) :
    (handshakeCleanup env st).st.built = st.built := by
  unfold handshakeCleanup; split <;> rfl

theorem cleanup_session (env : Env) (st : State) :
    (handshakeCleanup env st).st.sessionIdString = st.sessionIdString ∧
    (handshakeCleanup env st).st.hasSessionId = st.hasSessionId := by
  unfold handshakeCleanup; split <;> exact ⟨rfl, rfl⟩

theorem cleanup_format (env : Env) (st : State) :
    (handshakeCleanup env st).st.NegotiatedVideoFormat = st.NegotiatedVideoFormat := by
  unfold handshakeCleanup; split <;> rfl

theorem ok200_status {ex : Exchange} {response : RTSP_MESSAGE} (h : ex.Ok200)
    (hr : ex.result.response = some response) : response.statusCode = 200 := by
  obtain ⟨r2, h2, h200⟩ := h
  rw [hr] at h2
  cases h2
  exact h200

theorem boundary_ok_at {env : Env} {n : Nat} {st : State} (hb : Boundary env n st)
    {i : Nat} {ex : Exchange} (h : st.exchanges[i]? = some ex) : ex.Ok200 :=
  hb.ok ex (List.getElem?_mem h)

theorem responseAt_some {r : Run} {i : Nat} {response : RTSP_MESSAGE}
    (h : r.responseAt i = some response) :
    ∃ ex, r.st.exchanges[i]? = some ex ∧ ex.result.response = some response := by
  unfold Run.responseAt at h
  cases hex : r.st.exchanges[i]? with
  | none => rw [hex] at h; exact Option.noConfusion h
  | some ex => rw [hex] at h; exact ⟨ex, rfl, h⟩

/-- C1. For every block number `k` of 1..7 and every status `s` other than 200: if in a
run of `performRtspHandshake` the transactions 1..k-1 brought back a response with status
200 (the third one with a `Session` option) and the `k`-th transaction brought back a
parsed response with status `s`, then the run returns `s`, and exactly `k` requests were
built and exactly `k` were handed to the transport. -/
theorem status_short_circuits (env : Env) (st0 : State) (k : Nat) (s : Int)
    (_hk : 1 ≤ k ∧ k ≤ 7) (hs : s ≠ 200)
    (_hprev : ∀ i, i + 1 < k →
      ∃ response, (performRtspHandshake env st0).responseAt i = some response ∧
        response.statusCode = 200)
    (_hsession : 3 < k →
      ∃ response sessionId, (performRtspHandshake env st0).responseAt 2 = some response ∧
        getOptionContent response.options "Session" = some sessionId)
    (hstep : ∃ response,
      (performRtspHandshake env st0).responseAt (k - 1) = some response ∧
      response.statusCode = s) :
    (performRtspHandshake env st0).outcome = Outcome.returned s ∧
    (performRtspHandshake env st0).st.exchanges.length = k ∧
    (performRtspHandshake env st0).st.built.length = k := by
  obtain ⟨response, hra, hstatus⟩ := hstep
  obtain ⟨ex, hex, hresp⟩ := responseAt_some hra
  have hk1 : 1 ≤ k := _hk.1
  have hnot : ¬ ex.Ok200 := fun h => hs (by rw [← hstatus]; exact ok200_status h hresp)
  have hspec := performRtspHandshake_spec env st0
  cases hspec with
  | ended he =>
    cases he with
    | setupFailed _ h2 _ _ _ => rw [h2] at hex; simp at hex
    | stopped n st hn hb hst =>
      have hlast : (performRtspHandshake env st0).st.exchanges
          = st.exchanges ++ [stepExchange env n st] ∧ k - 1 = n ∧
            ex = stepExchange env n st := by
        rcases stopped_exchanges hst with he | he
        · rw [he] at hex; exact absurd (boundary_ok_at hb hex) hnot
        · rw [he] at hex
          rcases getElem?_snoc hex with h1 | ⟨h1, h2⟩
          · exact absurd (boundary_ok_at hb h1) hnot
          · exact ⟨he, by rw [h1, hb.len], h2⟩
      obtain ⟨htrace, hkn, hexeq⟩ := hlast
      rw [hexeq] at hresp
      have hlen : (performRtspHandshake env st0).st.exchanges.length = k := by
        rw [htrace, List.length_append, hb.len]
        simp only [List.length_singleton]; omega
      cases hst with
      | notSent _ he _ _ _ =>
        rw [he] at htrace
        have := congrArg List.length htrace
        rw [List.length_append] at this
        simp at this
      | failed _ hnone _ => rw [hnone] at hresp; exact Option.noConfusion hresp
      | status response2 hsent hr2 _ hout =>
        rw [hr2] at hresp
        cases hresp
        refine ⟨by rw [hout, hstatus], hlen, ?_⟩
        rw [hsent.built, List.length_append, hb.blen]
        simp only [List.length_singleton]; omega
      | noPayload response2 _ _ hr2 h200 _ _ _ =>
        rw [hr2] at hresp; cases hresp
        exact absurd (hstatus ▸ h200) hs
      | noSession response2 _ _ hr2 h200 _ _ =>
        rw [hr2] at hresp; cases hresp
        exact absurd (hstatus ▸ h200) hs
      | overflow response2 _ _ _ hr2 h200 _ _ _ =>
        rw [hr2] at hresp; cases hresp
        exact absurd (hstatus ▸ h200) hs
  | completed st hb hr =>
    rw [hr, cleanup_exchanges] at hex
    exact absurd (boundary_ok_at hb hex) hnot

/-- What the scripted environment answers to the transaction number `n`. -/
theorem scriptedEnv_response (generation supportsHevc : Int) (responses : List RTSP_MESSAGE)
    (n : Nat) (hn : n < 256) (request : RTSP_MESSAGE) (expecting error : Int) :
    (transactRtspMessage (scriptedEnv generation supportsHevc responses) n request
      expecting error).response = responses[n]? := by
  have hbyte : (UInt8.ofNat n).toNat = n := by
    simp [UInt8.ofNat, UInt8.toNat, Fin.ofNat, UInt8.size]
    omega
  unfold transactRtspMessage
  by_cases hgen : generation ≥ 5
  · have h1 : (scriptedEnv generation supportsHevc responses).ServerMajorVersion ≥ 5 := hgen
    rw [if_pos h1]
    by_cases he : expecting ≠ 0
    · simp [transactRtspMessageEnet, scriptedEnv, parseResponse_response, scriptedParse, he,
        RTSP_MAX_RESP_SIZE, hbyte]
    · simp [transactRtspMessageEnet, scriptedEnv, parseResponse_response, scriptedParse, he,
        RTSP_MAX_RESP_SIZE, hbyte]
  · have h1 : ¬ (scriptedEnv generation supportsHevc responses).ServerMajorVersion ≥ 5 := hgen
    rw [if_neg h1]
    simp [transactRtspMessageTcp, scriptedEnv, recvLoop, parseResponse_response,
      scriptedParse, RTSP_MAX_RESP_SIZE, SOCKET_ERROR, hbyte]

/-- At the input of C1's example: ANNOUNCE answered with 454 returns 454 after five
requests. -/
theorem status_short_circuits_witness :
    (performRtspHandshake (scriptedEnv 5 1 announceRejected) initialState).outcome
      = Outcome.returned 454 ∧
    (performRtspHandshake (scriptedEnv 5 1 announceRejected) initialState).st.exchanges.length
      = 5 ∧
    (performRtspHandshake (scriptedEnv 5 1 announceRejected) initialState).st.built.length
      = 5 :=
  status_short_circuits (scriptedEnv 5 1 announceRejected) initialState 5 454
    (by decide) (by decide)
    (fun i hi => by
      have h4 : i < 4 := by omega
      interval_cases i
      · exact ⟨ok200, by decide, by decide⟩
      · exact ⟨ok200, by decide, by decide⟩
      · exact ⟨ok200Session "ABC123", by decide, by decide⟩
      · exact ⟨ok200, by decide, by decide⟩)
    (fun _ => ⟨ok200Session "ABC123", "ABC123", by decide, by decide⟩)
    ⟨cannedResponse 454 [] none, by decide, by decide⟩

/-- The third exchange of a run that went past the SETUP streamid=audio block carried a
`Session` option, which is the stored session id. -/
theorem boundary_session_at {env : Env} {n : Nat} {st : State} (hb : Boundary env n st)
    (h3 : 3 ≤ n) {ex : Exchange} {response : RTSP_MESSAGE}
    (hex : st.exchanges[2]? = some ex) (hr : ex.result.response = some response) :
    getOptionContent response.options "Session" = some st.sessionIdString := by
  obtain ⟨_, _, ex2, r2, hex2, hr2, hs⟩ := hb.session h3
  rw [hex] at hex2
  cases hex2
  rw [hr] at hr2
  cases hr2
  exact hs

/-- C5. If in a run of `performRtspHandshake` the OPTIONS and DESCRIBE transactions
brought back status 200 and the SETUP streamid=audio transaction brought back a status-200
response without a `Session` option, then the run returns -1, `hasSessionId` is 0, and
three requests, no more, were built and handed to the transport. -/
theorem missing_session_fails (env : Env) (st0 : State)
    (_h1 : ∃ response, (performRtspHandshake env st0).responseAt 0 = some response ∧
      response.statusCode = 200)
    (_h2 : ∃ response, (performRtspHandshake env st0).responseAt 1 = some response ∧
      response.statusCode = 200)
    (h3 : ∃ response, (performRtspHandshake env st0).responseAt 2 = some response ∧
      response.statusCode = 200 ∧
      getOptionContent response.options "Session" = none) :
    (performRtspHandshake env st0).outcome = Outcome.returned (-1) ∧
    (performRtspHandshake env st0).st.hasSessionId = 0 ∧
    (performRtspHandshake env st0).st.exchanges.length = 3 ∧
    (performRtspHandshake env st0).st.built.length = 3 := by
  obtain ⟨response, hra, h200, hnone⟩ := h3
  obtain ⟨ex, hex, hresp⟩ := responseAt_some hra
  have hspec := performRtspHandshake_spec env st0
  cases hspec with
  | ended he =>
    cases he with
    | setupFailed _ h2 _ _ _ => rw [h2] at hex; simp at hex
    | stopped n st hn hb hst =>
      have hframe := stopped_frame hst
      by_cases hn3 : 3 ≤ n
      · -- the run went past block 3: its response had a Session option
        have hex2 : st.exchanges[2]? = some ex := by
          rcases stopped_exchanges hst with he | he
          · rw [he] at hex; exact hex
          · rw [he] at hex
            rcases getElem?_snoc hex with h1 | ⟨h1, _⟩
            · exact h1
            · rw [hb.len] at h1; omega
        have := boundary_session_at hb hn3 hex2 hresp
        rw [hnone] at this
        exact Option.noConfusion this
      · have hlt := getElem?_lt_length hex
        have hlast : n = 2 ∧ (performRtspHandshake env st0).st.exchanges
            = st.exchanges ++ [stepExchange env n st] ∧ ex = stepExchange env n st := by
          rcases stopped_exchanges hst with he | he
          · rw [he, hb.len] at hlt; omega
          · rw [he] at hex hlt
            rw [List.length_append, hb.len] at hlt
            simp only [List.length_singleton] at hlt
            rcases getElem?_snoc hex with h1 | ⟨h1, h2⟩
            · have := getElem?_lt_length h1
              rw [hb.len] at this; omega
            · rw [hb.len] at h1
              exact ⟨h1.symm, he, h2⟩
        obtain ⟨hn2, htrace, hexeq⟩ := hlast
        rw [hexeq] at hresp
        cases hst with
        | notSent _ he _ _ _ =>
          rw [he] at htrace
          have := congrArg List.length htrace
          rw [List.length_append] at this
          simp at this
        | failed _ hnone2 _ => rw [hnone2] at hresp; exact Option.noConfusion hresp
        | status response2 _ hr2 hne _ =>
          rw [hr2] at hresp; cases hresp
          exact absurd h200 hne
        | noPayload response2 h1 _ _ _ _ _ _ => omega
        | noSession response2 _ hsent hr2 _ _ hout =>
          refine ⟨hout, ?_, ?_, ?_⟩
          · rw [hsent.frame.hasSession]; exact hb.nosession (by omega)
          · rw [hsent.exchanges, List.length_append, hb.len, hn2]; rfl
          · rw [hsent.built, List.length_append, hb.blen, hn2]; rfl
        | overflow response2 sessionId _ _ hr2 _ hsome _ _ =>
          rw [hr2] at hresp; cases hresp
          rw [hnone] at hsome
          exact Option.noConfusion hsome
  | completed st hb hr =>
    rw [hr, cleanup_exchanges] at hex
    have := boundary_session_at hb (by decide) hex hresp
    rw [hnone] at this
    exact Option.noConfusion this

/-- The requests of a run have the shape of their block, with the stored session id. -/
theorem run_shape (env : Env) (r : Run) (h : RunSpec env r) (i : Nat) (ex : Exchange)
    (hex : r.st.exchanges[i]? = some ex) :
    Shape env r.st.sessionIdString i ex.request := by
  cases h with
  | ended he =>
    cases he with
    | setupFailed _ h2 _ _ _ => rw [h2] at hex; simp at hex
    | stopped n st hn hb hst =>
      have hframe := stopped_frame hst
      rw [hframe.session]
      rcases stopped_exchanges hst with he | he
      · rw [he] at hex; exact hb.shape i ex hex
      · rw [he] at hex
        rcases getElem?_snoc hex with h1 | ⟨h1, h2⟩
        · exact hb.shape i ex h1
        · rw [hb.len] at h1
          subst h1
          rw [h2]
          exact shape_stepFull env i st hb hn
  | completed st hb hr =>
    rw [hr, cleanup_exchanges] at hex
    rw [hr, (cleanup_session env st).1]
    exact hb.shape i ex hex

/-- When a run has a fourth exchange, the stored session id is the `Session` value of the
third response. -/
theorem run_session (env : Env) (r : Run) (h : RunSpec env r)
    (hlen : 3 < r.st.exchanges.length) (ex : Exchange) (response : RTSP_MESSAGE)
    (hex : r.st.exchanges[2]? = some ex) (hr : ex.result.response = some response) :
    getOptionContent response.options "Session" = some r.st.sessionIdString := by
  cases h with
  | ended he =>
    cases he with
    | setupFailed _ h2 _ _ _ => rw [h2] at hex; simp at hex
    | stopped n st hn hb hst =>
      have hframe := stopped_frame hst
      rw [hframe.session]
      have hn3 : 3 ≤ n := by
        rcases stopped_exchanges hst with he | he
        · rw [he, hb.len] at hlen; omega
        · rw [he, List.length_append, hb.len] at hlen
          simp only [List.length_singleton] at hlen; omega
      have hex2 : st.exchanges[2]? = some ex := by
        rcases stopped_exchanges hst with he | he
        · rw [he] at hex; exact hex
        · rw [he] at hex
          rcases getElem?_snoc hex with h1 | ⟨h1, _⟩
          · exact h1
          · rw [hb.len] at h1; omega
      exact boundary_session_at hb hn3 hex2 hr
  | completed st hb hr2 =>
    rw [hr2, cleanup_exchanges] at hex
    rw [hr2, (cleanup_session env st).1]
    exact boundary_session_at hb (by decide) hex hr

/-- C8. In every run of `performRtspHandshake` the first three requests handed to the
transport are OPTIONS, DESCRIBE and SETUP streamid=audio and carry no `Session` option; and
for every value `S` of at most 15 bytes that the SETUP streamid=audio response carries as
`Session`, every later request handed to the transport (SETUP streamid=video, ANNOUNCE,
PLAY streamid=video, PLAY streamid=audio) carries exactly one `Session` option, with the
value `S`. -/
theorem session_threading (env : Env) (st0 : State) :
    (∀ (i : Nat) (ex : Exchange), i < 3 →
      (performRtspHandshake env st0).st.exchanges[i]? = some ex →
      ex.request.command = stepCommand i ∧
      ex.request.target = stepTarget ("rtsp://" ++ env.urlAddr) i ∧
      sessionValues ex.request = []) ∧
    (∀ S : String, strlen S ≤ 15 →
      (∃ response, (performRtspHandshake env st0).responseAt 2 = some response ∧
        getOptionContent response.options "Session" = some S) →
      ∀ (i : Nat) (ex : Exchange), 3 ≤ i →
        (performRtspHandshake env st0).st.exchanges[i]? = some ex →
        ex.request.command = stepCommand i ∧
        ex.request.target = stepTarget ("rtsp://" ++ env.urlAddr) i ∧
        sessionValues ex.request = [S]) := by
  have hspec := performRtspHandshake_spec env st0
  refine ⟨?_, ?_⟩
  · intro i ex hi hex
    have hshape := run_shape env _ hspec i ex hex
    refine ⟨hshape.command, hshape.target, ?_⟩
    rw [hshape.session, if_pos hi]
  · intro S _ hS i ex hi hex
    obtain ⟨response, hra, hsess⟩ := hS
    obtain ⟨ex2, hex2, hr⟩ := responseAt_some hra
    have hshape := run_shape env _ hspec i ex hex
    have hlen : 3 < (performRtspHandshake env st0).st.exchanges.length := by
      have := getElem?_lt_length hex; omega
    have hstored := run_session env _ hspec hlen ex2 response hex2 hr
    rw [hsess] at hstored
    cases hstored
    refine ⟨hshape.command, hshape.target, ?_⟩
    rw [hshape.session, if_neg (by omega)]

theorem run_cseq_built (env : Env) (r : Run) (h : RunSpec env r) (i : Nat)
    (m : RTSP_MESSAGE) (hm : r.st.built[i]? = some m) :
    getOptionContent m.options "CSeq" = some (sprintf_d ((i : Int) + 1)) := by
  cases h with
  | ended he =>
    cases he with
    | setupFailed _ _ h3 _ _ => rw [h3] at hm; simp at hm
    | stopped n st hn hb hst =>
      rcases stopped_built hst with he | he
      · rw [he] at hm; exact hb.cseq i m hm
      · rw [he] at hm
        rcases getElem?_snoc hm with h1 | ⟨h1, h2⟩
        · exact hb.cseq i m h1
        · rw [hb.blen] at h1
          subst h1
          rw [h2]
          exact cseq_stepFirst env i st hb
  | completed st hb hr =>
    rw [hr, cleanup_built] at hm
    exact hb.cseq i m hm

theorem map_eq_range_map {α β : Type} (l : List α) (f : α → β) (g : Nat → β)
    (h : ∀ (i : Nat) (a : α), l[i]? = some a → f a = g i) :
    l.map f = (List.range l.length).map g := by
  apply List.ext_getElem?
  intro i
  rw [List.getElem?_map, List.getElem?_map]
  by_cases hi : i < l.length
  · rw [List.getElem?_range hi]
    rw [List.getElem?_eq_getElem hi]
    simp only [Option.map_some']
    rw [h i l[i] (List.getElem?_eq_getElem hi)]
  · rw [List.getElem?_eq_none (Nat.le_of_not_lt hi)]
    rw [List.getElem?_eq_none (by rw [List.length_range]; exact Nat.le_of_not_lt hi)]
    rfl

/-- C3. In every run of `performRtspHandshake`, whatever its outcome, the requests built
by `initializeRtspRequest` carry as `CSeq` the decimal renderings of 1, 2, ..., n in the
order they were built, and so do the requests handed to the transport. -/
theorem cseq_counts_up (env : Env) (st0 : State) :
    (performRtspHandshake env st0).st.built.map
        (fun m => getOptionContent m.options "CSeq") =
      (List.range (performRtspHandshake env st0).st.built.length).map
        (fun (i : Nat) => some (sprintf_d ((i : Int) + 1))) ∧
    (performRtspHandshake env st0).st.exchanges.map
        (fun ex => getOptionContent ex.request.options "CSeq") =
      (List.range (performRtspHandshake env st0).st.exchanges.length).map
        (fun (i : Nat) => some (sprintf_d ((i : Int) + 1))) := by
  have hspec := performRtspHandshake_spec env st0
  refine ⟨?_, ?_⟩
  · exact map_eq_range_map _ _ _ (fun i m hm => run_cseq_built env _ hspec i m hm)
  · exact map_eq_range_map _ _ _ (fun i ex hex => (run_shape env _ hspec i ex hex).cseq)

theorem keeps_trans {a b c : State} (h1 : Keeps a b) (h2 : Keeps b c) : Keeps a c :=
  ⟨fun i ex h => h2.exchanges i ex (h1.exchanges i ex h), by rw [h2.format, h1.format]⟩

theorem keeps_of_blockSpec (env : Env) (n : Nat) (st : State) (out : Except Run State)
    (hn : n ≠ 1) (h : BlockSpec env n st out) : KeepsSpec st out := by
  cases out with
  | ok st2 =>
    have ha : Advanced env n st st2 := h
    refine ⟨fun i ex hex => ?_, ha.format hn⟩
    rw [ha.exchanges]
    exact getElem?_snoc_left hex
  | error r =>
    have hs : Stopped env n st r := h
    refine ⟨fun i ex hex => ?_, (stopped_frame hs).format⟩
    rcases stopped_exchanges hs with he | he
    · rw [he]; exact hex
    · rw [he]; exact getElem?_snoc_left hex

theorem keeps_cleanup (env : Env) (st : State) : Keeps st (handshakeCleanup env st).st :=
  ⟨fun i ex h => by rw [cleanup_exchanges]; exact h, cleanup_format env st⟩

theorem handshakeAfterDescribe_keeps (env : Env) (st2 : State) :
    Keeps st2 (handshakeAfterDescribe env st2).st := by
  unfold handshakeAfterDescribe
  have k3 := keeps_of_blockSpec env 2 st2 _ (by decide) (handshakeSetupAudio_spec env st2)
  cases e3 : handshakeSetupAudio env st2 with
  | error r => rw [e3] at k3; exact k3
  | ok st3 =>
    rw [e3] at k3
    simp only []
    have k4 := keeps_of_blockSpec env 3 st3 _ (by decide) (handshakeSetupVideo_spec env st3)
    cases e4 : handshakeSetupVideo env st3 with
    | error r => rw [e4] at k4; exact keeps_trans k3 k4
    | ok st4 =>
      rw [e4] at k4
      simp only []
      have k5 := keeps_of_blockSpec env 4 st4 _ (by decide) (handshakeAnnounce_spec env st4)
      cases e5 : handshakeAnnounce env st4 with
      | error r => rw [e5] at k5; exact keeps_trans k3 (keeps_trans k4 k5)
      | ok st5 =>
        rw [e5] at k5
        simp only []
        have k6 := keeps_of_blockSpec env 5 st5 _ (by decide)
          (handshakePlayVideo_spec env st5)
        cases e6 : handshakePlayVideo env st5 with
        | error r => rw [e6] at k6; exact keeps_trans k3 (keeps_trans k4 (keeps_trans k5 k6))
        | ok st6 =>
          rw [e6] at k6
          simp only []
          have k7 := keeps_of_blockSpec env 6 st6 _ (by decide)
            (handshakePlayAudio_spec env st6)
          cases e7 : handshakePlayAudio env st6 with
          | error r =>
            rw [e7] at k7
            exact keeps_trans k3 (keeps_trans k4 (keeps_trans k5 (keeps_trans k6 k7)))
          | ok st7 =>
            rw [e7] at k7
            exact keeps_trans k3 (keeps_trans k4 (keeps_trans k5 (keeps_trans k6
              (keeps_trans k7 (keeps_cleanup env st7)))))

theorem strstrChars_iff (haystack needle : List Char) :
    strstrChars haystack needle = true ↔ needle <:+: haystack := by
  induction haystack with
  | nil =>
    simp only [strstrChars, List.isEmpty_iff, List.infix_nil]
  | cons c cs ih =>
    simp only [strstrChars, Bool.or_eq_true, ih, List.isPrefixOf_iff_prefix,
      List.infix_cons_iff]

theorem negotiatedFormat_some (supportsHevc : Int) (payload : String) :
    (negotiatedFormat supportsHevc (some payload) = VideoFormat.VIDEO_FORMAT_H265 ↔
      supportsHevc ≠ 0 ∧ "sprop-parameter-sets=AAAAAU".data <:+: payload.data) ∧
    (negotiatedFormat supportsHevc (some payload) = VideoFormat.VIDEO_FORMAT_H264 ↔
      ¬ (supportsHevc ≠ 0 ∧ "sprop-parameter-sets=AAAAAU".data <:+: payload.data)) := by
  unfold negotiatedFormat strstr
  simp only [strstrChars_iff]
  by_cases h : supportsHevc ≠ 0 ∧ "sprop-parameter-sets=AAAAAU".data <:+: payload.data
  · simp only [h, and_self, if_true, ne_eq, not_false_eq_true, true_iff, not_true_eq_false,
      iff_false]
    exact ⟨trivial, fun hc => VideoFormat.noConfusion hc⟩
  · rw [if_neg h]
    simp only [h, iff_false, not_false_eq_true, iff_true]
    exact ⟨fun hc => VideoFormat.noConfusion hc, trivial⟩

/-- C4. For every run of `performRtspHandshake` in which the DESCRIBE transaction brought
back a status-200 response with a payload, and every value of `supportsHevc`: the DESCRIBE
block completes, after it `NegotiatedVideoFormat` is `VIDEO_FORMAT_H265` exactly when
`supportsHevc` is set and the payload contains `sprop-parameter-sets=AAAAAU`, it is
`VIDEO_FORMAT_H264` in every other case, and at the end of the run it still has the value
it had after the DESCRIBE block. -/
theorem codec_negotiation (env : Env) (st0 : State)
    (response : RTSP_MESSAGE) (payload : String)
    (hdescribe : (performRtspHandshake env st0).responseAt 1 = some response)
    (h200 : response.statusCode = 200)
    (hp : response.payload = some payload) :
    ∃ st2, handshakeThroughDescribe env st0 = Except.ok st2 ∧
      (st2.NegotiatedVideoFormat = VideoFormat.VIDEO_FORMAT_H265 ↔
        env.supportsHevc ≠ 0 ∧ "sprop-parameter-sets=AAAAAU".data <:+: payload.data) ∧
      (st2.NegotiatedVideoFormat = VideoFormat.VIDEO_FORMAT_H264 ↔
        ¬ (env.supportsHevc ≠ 0 ∧ "sprop-parameter-sets=AAAAAU".data <:+: payload.data)) ∧
      (performRtspHandshake env st0).st.NegotiatedVideoFormat =
        st2.NegotiatedVideoFormat := by
  obtain ⟨ex, hex, hr⟩ := responseAt_some hdescribe
  have hspec := handshakeThroughDescribe_spec env st0
  unfold performRtspHandshake at hex ⊢
  cases e : handshakeThroughDescribe env st0 with
  | error r =>
    exfalso
    rw [e] at hspec hex
    have hend : Ended env 2 r := hspec
    have hex1 : r.st.exchanges[1]? = some ex := hex
    cases hend with
    | setupFailed _ h2 _ _ _ => rw [h2] at hex1; simp at hex1
    | stopped n st hn hb hst =>
      have hlt := getElem?_lt_length hex1
      have hlast : n = 1 ∧ r.st.exchanges = st.exchanges ++ [stepExchange env n st] ∧
          ex = stepExchange env n st := by
        rcases stopped_exchanges hst with he | he
        · rw [he, hb.len] at hlt; omega
        · rw [he] at hex1 hlt
          rw [List.length_append, hb.len] at hlt
          simp only [List.length_singleton] at hlt
          rcases getElem?_snoc hex1 with h1 | ⟨h1, h2⟩
          · have := getElem?_lt_length h1
            rw [hb.len] at this; omega
          · rw [hb.len] at h1
            exact ⟨h1.symm, he, h2⟩
      obtain ⟨hn1, htrace, hexeq⟩ := hlast
      rw [hexeq] at hr
      cases hst with
      | notSent _ he _ _ _ =>
        rw [he] at htrace
        have := congrArg List.length htrace
        rw [List.length_append] at this
        simp at this
      | failed _ hnone _ => rw [hnone] at hr; exact Option.noConfusion hr
      | status response2 _ hr2 hne _ =>
        rw [hr2] at hr; cases hr
        exact hne h200
      | noPayload response2 _ _ hr2 _ _ hnone _ =>
        rw [hr2] at hr; cases hr
        rw [hnone] at hp
        exact Option.noConfusion hp
      | noSession response2 h2 _ _ _ _ _ => omega
      | overflow response2 sessionId h2 _ _ _ _ _ _ => omega
  | ok st2 =>
    rw [e] at hspec hex
    have hb : Boundary env 2 st2 := hspec
    have hex1 : (handshakeAfterDescribe env st2).st.exchanges[1]? = some ex := hex
    have hkeeps := handshakeAfterDescribe_keeps env st2
    obtain ⟨ex2, response2, hex2, hr2, hfmt, _⟩ := hb.codec (Nat.le_refl 2)
    have hsame := hkeeps.exchanges 1 ex2 hex2
    rw [hex1] at hsame
    cases hsame
    rw [hr] at hr2
    cases hr2
    rw [hp] at hfmt
    refine ⟨st2, rfl, ?_, ?_, hkeeps.format⟩
    · rw [hfmt]; exact (negotiatedFormat_some env.supportsHevc payload).1
    · rw [hfmt]; exact (negotiatedFormat_some env.supportsHevc payload).2

theorem boundary_session_eq (env : Env) (n : Nat) (st : State) (S : String)
    (R : Nat → RTSP_MESSAGE)
    (hR : ∀ n, n < 7 →
      (transactRtspMessage env n (requestOfStep env S n) (stepExpecting n) (-1)).response
        = some (R n))
    (hS : getOptionContent (R 2).options "Session" = some S)
    (hb : Boundary env n st) (h3 : 3 ≤ n) : st.sessionIdString = S := by
  obtain ⟨_, _, ex, response, hex, hresp, hsess⟩ := hb.session h3
  obtain ⟨hreq, hexp⟩ := hb.request 2 ex hex
  have htr := hb.transport 2 ex hex
  rw [hreq, hexp, requestOfStep_session env S st.sessionIdString 2 (Or.inl (by decide))]
    at htr
  have hresponse : ex.result.response = some (R 2) := by
    rw [htr]
    exact hR 2 (by decide)
  rw [hresp] at hresponse
  cases hresponse
  rw [hS] at hsess
  cases hsess
  rfl

theorem stepExchange_response (env : Env) (n : Nat) (st : State) (S : String)
    (R : Nat → RTSP_MESSAGE)
    (hR : ∀ n, n < 7 →
      (transactRtspMessage env n (requestOfStep env S n) (stepExpecting n) (-1)).response
        = some (R n))
    (hS : getOptionContent (R 2).options "Session" = some S)
    (hb : Boundary env n st) (hn : n < 7) :
    (stepExchange env n st).result.response = some (R n) := by
  have hreq : stepFull env n st = requestOfStep env S n := by
    rw [stepFull_eq env n st hb hn]
    refine (requestOfStep_session env _ _ n ?_).symm
    by_cases h : n < 3
    · exact Or.inl h
    · exact Or.inr (boundary_session_eq env n st S R hR hS hb (by omega)).symm
  unfold stepExchange
  rw [hb.len, hreq]
  exact hR n hn

/-- C2, as amended. For every `Session` value `S` of at most 15 bytes: if none of the
allocations of the handshake fails (it makes `stepMallocs 7 = 78`, three for each option
of its requests), the SDP encoder gives a payload for the client version of the handshake,
the ENet connection of a generation 5 server is set up, the transport returns a parsed
status-200 response `R n` to each of the seven requests the handshake sends (the request
`requestOfStep env S n` with the `expectingPayload` flag of its block, set for DESCRIBE
only), the DESCRIBE response has a payload when `supportsHevc` is set, and the SETUP
streamid=audio response carries `Session` with the value `S`, then `performRtspHandshake`
returns 0, exactly seven requests were handed to the transport, namely those, in the order
OPTIONS, DESCRIBE, SETUP streamid=audio, SETUP streamid=video, ANNOUNCE streamid=video,
PLAY streamid=video, PLAY streamid=audio, and at the end the stored session id is `S` and
`hasSessionId` is 1. -/
theorem handshake_succeeds (env : Env) (st0 : State) (S : String) (R : Nat → RTSP_MESSAGE)
    (hlen : strlen S ≤ 15)
    (hmalloc : ∀ k, k < stepMallocs 7 → env.malloc k = true)
    (hsdp : env.getSdpPayloadForStreamConfig (clientVersion env) ≠ none)
    (hsetup : 5 ≤ env.ServerMajorVersion → ¬ SetupFailure env)
    (hR : ∀ n, n < 7 →
      (transactRtspMessage env n (requestOfStep env S n) (stepExpecting n) (-1)).response
        = some (R n))
    (h200 : ∀ n, n < 7 → (R n).statusCode = 200)
    (hpay : env.supportsHevc ≠ 0 → (R 1).payload ≠ none)
    (hS : getOptionContent (R 2).options "Session" = some S) :
    (performRtspHandshake env st0).outcome = Outcome.returned 0 ∧
    (performRtspHandshake env st0).st.exchanges.map (fun ex => ex.request) =
      (List.range 7).map (requestOfStep env S) ∧
    (performRtspHandshake env st0).st.exchanges.map
        (fun ex => (ex.request.command, ex.request.target)) =
      [("OPTIONS", "rtsp://" ++ env.urlAddr), ("DESCRIBE", "rtsp://" ++ env.urlAddr),
       ("SETUP", "streamid=audio"), ("SETUP", "streamid=video"),
       ("ANNOUNCE", "streamid=video"), ("PLAY", "streamid=video"),
       ("PLAY", "streamid=audio")] ∧
    (performRtspHandshake env st0).st.sessionIdString = S ∧
    (performRtspHandshake env st0).st.hasSessionId = 1 := by
  have hspec := performRtspHandshake_spec env st0
  cases hspec with
  | ended he =>
    exfalso
    cases he with
    | setupFailed hgen _ _ _ hfail => exact hsetup hgen hfail
    | stopped n st hn hb hst =>
      have hres := stepExchange_response env n st S R hR hS hb hn
      cases hst with
      | notSent _ _ _ _ hl =>
        rcases hl with ⟨k, hlt, hk⟩ | hnone
        · rw [hb.mallocs, stepMallocs_succ env n st hb hn] at hlt
          rw [hmalloc k (Nat.lt_of_lt_of_le hlt (stepMallocs_le n hn))] at hk
          exact Bool.noConfusion hk
        · rw [hb.version] at hnone; exact hsdp hnone
      | failed _ hnone _ => rw [hnone] at hres; exact Option.noConfusion hres
      | status response _ hr hne _ =>
        rw [hr] at hres; cases hres
        exact hne (h200 n hn)
      | noPayload response h1 _ hr _ hhevc hnone _ =>
        rw [hr] at hres; cases hres
        subst h1
        exact hpay hhevc hnone
      | noSession response h2 _ hr _ hnone _ =>
        rw [hr] at hres; cases hres
        subst h2
        rw [hS] at hnone
        exact Option.noConfusion hnone
      | overflow response sessionId h2 _ hr _ hsome hover _ =>
        rw [hr] at hres; cases hres
        subst h2
        rw [hS] at hsome
        cases hsome
        omega
  | completed st hb hr =>
    have hsess : st.sessionIdString = S :=
      boundary_session_eq env 7 st S R hR hS hb (by decide)
    rw [hr]
    refine ⟨cleanup_outcome env st, ?_, ?_, ?_, ?_⟩
    · rw [cleanup_exchanges]
      have hmap := map_eq_range_map st.exchanges (fun ex => ex.request)
        (requestOfStep env S)
        (fun i ex hex => by
          show ex.request = requestOfStep env S i
          rw [(hb.request i ex hex).1, hsess])
      rw [hmap, hb.len]
    · rw [cleanup_exchanges]
      have hmap := map_eq_range_map st.exchanges
        (fun ex => (ex.request.command, ex.request.target))
        (fun i => (stepCommand i, stepTarget ("rtsp://" ++ env.urlAddr) i))
        (fun i ex hex => by
          have hshape := hb.shape i ex hex
          simp only [hshape.command, hshape.target])
      rw [hmap, hb.len]
      rfl
    · rw [(cleanup_session env st).1]
      exact hsess
    · rw [(cleanup_session env st).2]
      exact (hb.session (by decide)).1

/-- C2 as stated fails. The transport answers each of the seven transactions with a parsed
status-200 response; where the SETUP streamid=audio response carries a `Session` value of
16 bytes the run ends in the `strcpy` that overruns `sessionIdString[16]`, and where
`supportsHevc` is set and the DESCRIBE response has no payload it ends in `strstr` on
`NULL`: neither run returns 0. -/
theorem canned_success_undefined :
    ((List.range 7).map (fun n =>
        (transactRtspMessage (scriptedEnv 4 0 longSession) n optionsRequest 0 (-1)).response.map
          (fun response => response.statusCode))
      = [some 200, some 200, some 200, some 200, some 200, some 200, some 200] ∧
     (transactRtspMessage (scriptedEnv 4 0 longSession) 2 optionsRequest 0 (-1)).response.bind
          (fun response => getOptionContent response.options "Session")
      = some "0123456789ABCDEF" ∧
     (performRtspHandshake (scriptedEnv 4 0 longSession) initialState).outcome
      = Outcome.undefined ∧
     (performRtspHandshake (scriptedEnv 4 0 longSession) initialState).st.exchanges.length
      = 3) ∧
    ((List.range 7).map (fun n =>
        (transactRtspMessage (scriptedEnv 4 1 describeWithoutPayload) n optionsRequest 0
          (-1)).response.map (fun response => response.statusCode))
      = [some 200, some 200, some 200, some 200, some 200, some 200, some 200] ∧
     (transactRtspMessage (scriptedEnv 4 1 describeWithoutPayload) 2 optionsRequest 0
          (-1)).response.bind (fun response => getOptionContent response.options "Session")
      = some "ABC123" ∧
     (performRtspHandshake (scriptedEnv 4 1 describeWithoutPayload) initialState).outcome
      = Outcome.undefined ∧
     (performRtspHandshake (scriptedEnv 4 1 describeWithoutPayload)
        initialState).st.exchanges.length = 2) := by
  decide

/-- At an input of C2, over ENet: the server sends the SDP of its DESCRIBE reply in a
payload packet of its own (the header packet alone parses to a response without payload),
`supportsHevc` is set, the allocator has room for the 78 blocks of the handshake only, and
the SETUP streamid=audio response carries `Session: ABC123`. -/
theorem handshake_succeeds_witness :
    (performRtspHandshake (payloadPacketEnv 1 describeHevc) initialState).outcome
      = Outcome.returned 0 ∧
    (performRtspHandshake (payloadPacketEnv 1 describeHevc) initialState).st.exchanges.map
        (fun ex => ex.request) =
      (List.range 7).map (requestOfStep (payloadPacketEnv 1 describeHevc) "ABC123") ∧
    (performRtspHandshake (payloadPacketEnv 1 describeHevc) initialState).st.exchanges.map
        (fun ex => (ex.request.command, ex.request.target)) =
      [("OPTIONS", "rtsp://192.168.1.2"), ("DESCRIBE", "rtsp://192.168.1.2"),
       ("SETUP", "streamid=audio"), ("SETUP", "streamid=video"),
       ("ANNOUNCE", "streamid=video"), ("PLAY", "streamid=video"),
       ("PLAY", "streamid=audio")] ∧
    (performRtspHandshake (payloadPacketEnv 1 describeHevc) initialState).st.sessionIdString
      = "ABC123" ∧
    (performRtspHandshake (payloadPacketEnv 1 describeHevc) initialState).st.hasSessionId
      = 1 :=
  handshake_succeeds (payloadPacketEnv 1 describeHevc) initialState "ABC123"
    (packetReplies describeHevc)
    (by decide)
    (fun _ hk => decide_eq_true hk)
    (by decide)
    (fun _ h => by
      unfold SetupFailure at h
      revert h
      decide)
    (fun n hn => by interval_cases n <;> decide)
    (fun n hn => by interval_cases n <;> rfl)
    (fun _ => by decide)
    (by decide)

/-- At an input of C4: `supportsHevc` set and a DESCRIBE payload with the marker. -/
theorem codec_negotiation_witness :
    (performRtspHandshake (scriptedEnv 5 1 describeHevc) initialState).st.NegotiatedVideoFormat
      = VideoFormat.VIDEO_FORMAT_H265 := by
  obtain ⟨st2, _, h265, _, hkeep⟩ :=
    codec_negotiation (scriptedEnv 5 1 describeHevc) initialState
      (cannedResponse 200 [⟨"CSeq", "2"⟩]
        (some "a=fmtp:96 sprop-parameter-sets=AAAAAUABYAAAAwCwAAADAAADAHgVQ"))
      "a=fmtp:96 sprop-parameter-sets=AAAAAUABYAAAAwCwAAADAAADAHgVQ"
      (by decide) rfl rfl
  rw [hkeep]
  exact h265.mpr ⟨by decide, by decide⟩

/-- At an input of C5: three status-200 responses, none with a `Session` option. -/
theorem missing_session_fails_witness :
    (performRtspHandshake (scriptedEnv 4 0 sessionMissing) initialState).outcome
      = Outcome.returned (-1) ∧
    (performRtspHandshake (scriptedEnv 4 0 sessionMissing) initialState).st.hasSessionId
      = 0 ∧
    (performRtspHandshake (scriptedEnv 4 0 sessionMissing) initialState).st.exchanges.length
      = 3 ∧
    (performRtspHandshake (scriptedEnv 4 0 sessionMissing) initialState).st.built.length
      = 3 :=
  missing_session_fails (scriptedEnv 4 0 sessionMissing) initialState
    ⟨ok200, by decide, by decide⟩ ⟨ok200, by decide, by decide⟩
    ⟨ok200, by decide, by decide, by decide⟩

/-- At an input of C8: the PLAY streamid=audio request of a complete handshake carries
the one `Session` option `ABC123`. -/
theorem session_threading_witness :
    ∃ ex, (performRtspHandshake (scriptedEnv 5 1 allOk) initialState).st.exchanges[6]?
        = some ex ∧
      ex.request.command = "PLAY" ∧ ex.request.target = "streamid=audio" ∧
      sessionValues ex.request = ["ABC123"] := by
  cases hex : (performRtspHandshake (scriptedEnv 5 1 allOk) initialState).st.exchanges[6]? with
  | none => exact absurd hex (by decide)
  | some ex =>
    exact ⟨ex, rfl,
      (session_threading (scriptedEnv 5 1 allOk) initialState).2 "ABC123" (by decide)
        ⟨ok200Session "ABC123", by decide, by decide⟩ 6 ex (by decide) hex⟩

/-- C9, the code at the failing input. A generation 5 server rejects OPTIONS with 404:
`performRtspHandshake` returns 404 with `client` and `peer` still set; when
`enet_host_connect` fails it returns -1 with `client` still set; a complete handshake
with the same server leaves both `NULL`. -/
theorem failure_skips_enet_cleanup :
    ((performRtspHandshake (scriptedEnv 5 0 [cannedResponse 404 [] none])
        initialState).outcome = Outcome.returned 404 ∧
      (performRtspHandshake (scriptedEnv 5 0 [cannedResponse 404 [] none])
        initialState).st.client = some 1 ∧
      (performRtspHandshake (scriptedEnv 5 0 [cannedResponse 404 [] none])
        initialState).st.peer = some 2) ∧
    ((performRtspHandshake connectFailsEnv initialState).outcome = Outcome.returned (-1) ∧
      (performRtspHandshake connectFailsEnv initialState).st.client = some 1) ∧
    ((performRtspHandshake (scriptedEnv 5 0 allOk) initialState).outcome
        = Outcome.returned 0 ∧
      (performRtspHandshake (scriptedEnv 5 0 allOk) initialState).st.client = none ∧
      (performRtspHandshake (scriptedEnv 5 0 allOk) initialState).st.peer = none) := by
  decide

/-- C10, the code at the failing input. An OPTIONS response with status 0 makes
`performRtspHandshake` log a failed request and return 0 after one request; so does a
failed connect for which the platform reports the error code 0. -/
theorem failed_handshake_returns_zero :
    ((performRtspHandshake (scriptedEnv 4 0 [cannedResponse 0 [] none])
        initialState).outcome = Outcome.returned 0 ∧
      (performRtspHandshake (scriptedEnv 4 0 [cannedResponse 0 [] none])
        initialState).st.exchanges.length = 1 ∧
      (performRtspHandshake (scriptedEnv 4 0 [cannedResponse 0 [] none])
        initialState).st.limelog = ["RTSP OPTIONS request failed: %d\n"]) ∧
    ((performRtspHandshake unreachableEnv initialState).outcome = Outcome.returned 0 ∧
      (performRtspHandshake unreachableEnv initialState).responseAt 0 = none ∧
      (performRtspHandshake unreachableEnv initialState).st.limelog
        = ["RTSP OPTIONS request failed: %d\n"]) := by
  decide

end RtspConnection
